import Mathlib

/-!
# Verification of the miniapp generation-to-deployment pipeline

A shallow embedding of the orchestration core of the repository
(`generationWorker` / `deploymentErrorParser` modules) together with proofs
and refutations of the specification's claims.

External collaborators (the LLM completion service, the local compilation
validator, the Vercel deployment platform, the persistence layer) are
modelled as oracle parameters: each oracle value stands for the outcome of
one awaited external call, so all theorems quantify over every possible
behaviour of those collaborators.  Persistence calls are modelled as total
(never throwing), following the specification's §6 "synchronous,
always-consistent calls".
-/

set_option maxRecDepth 10000
set_option linter.unusedVariables false

namespace Miniapp

/-- A project source file, the element of every FileSet in the pipeline. -/
structure SrcFile where
  filename : String
  content : String
deriving DecidableEq, Repr

/-- A compilation error as produced by the local compilation validator
(`CompilationValidator`): file, optional line, message, optional suggestion.
Only these fields are read by `validateAndFixBuild`. -/
structure CompErr where
  file : String
  line : Option Nat
  message : String
  suggestion : Option String := none
deriving DecidableEq, Repr

/-- Result of `CompilationValidator.validateProject`: success flag plus the
error and warning lists (only `success` and `errors` are read by the loop). -/
structure ValidationResult where
  success : Bool
  errors : List CompErr
  warnings : List String := []
deriving DecidableEq, Repr

/-- Render an optional line number the way JS template interpolation prints
`${e.line}` (a missing value prints as `undefined`), as in the stuck-stop
`lastError` of `validateAndFixBuild`. -/
def lineOrUndefined : Option Nat → String
  | none => "undefined"
  | some n => toString n

/-- Render `${e.line || '?'}`: in JS both `undefined` and `0` are falsy. -/
def lineOrQuestion : Option Nat → String
  | none => "?"
  | some 0 => "?"
  | some n => toString n

/-- `validationResult.errors.map(e => file:line: message).join('\n')` used as
`lastError` when the loop stops because it is stuck on the same errors. -/
def stuckLastError (errors : List CompErr) : String :=
  String.intercalate "\n"
    (errors.map fun e => e.file ++ ":" ++ lineOrUndefined e.line ++ ": " ++ e.message)

/-- `errorMessages`: the per-iteration error history entries
`${e.file}:${e.line || '?'}: ${e.message}`. -/
def iterationErrorMessages (errors : List CompErr) : List String :=
  errors.map fun e => e.file ++ ":" ++ lineOrQuestion e.line ++ ": " ++ e.message

/-- First-occurrence-order deduplication of a list of keys (the key set of a
JS `Map` built by insertion). -/
def dedupKeysGo (seen : List String) : List String → List String
  | [] => []
  | k :: rest =>
    if seen.contains k then dedupKeysGo seen rest
    else k :: dedupKeysGo (k :: seen) rest

/-- First-occurrence-order deduplication of a list of keys. -/
def dedupKeys (l : List String) : List String := dedupKeysGo [] l

/-- Modelled from the spec: `CompilationErrorUtils.groupErrorsByFile` lives in
the `compilationValidator` module, which is not among the provided sources;
per spec §4.4 the fix step "groups errors by file".  Its key set is the
distinct error file names, and `validateAndFixBuild` keeps the current files
whose filename matches a key (`currentFiles.find(f => f.filename === filename)`). -/
def filesToFixOf (errors : List CompErr) (currentFiles : List SrcFile) : List SrcFile :=
  (dedupKeys (errors.map (·.file))).filterMap
    (fun fn => currentFiles.find? (fun f => f.filename == fn))

/-- `BuildLoopConfig` of the generation worker. -/
structure BuildLoopConfig where
  maxIterations : Nat
  enableLocalBuildValidation : Bool
deriving DecidableEq, Repr

/-- `DEFAULT_BUILD_LOOP_CONFIG = { maxIterations: 3, enableLocalBuildValidation: true }`. -/
def DEFAULT_BUILD_LOOP_CONFIG : BuildLoopConfig :=
  { maxIterations := 3, enableLocalBuildValidation := true }

/-- `Partial<BuildLoopConfig>`: each field may be absent. -/
structure PartialBuildLoopConfig where
  maxIterations : Option Nat := none
  enableLocalBuildValidation : Option Bool := none
deriving DecidableEq, Repr

/-- The spread merge `{ ...DEFAULT_BUILD_LOOP_CONFIG, ...config }`. -/
def mergeBuildLoopConfig (config : PartialBuildLoopConfig) : BuildLoopConfig :=
  { maxIterations := config.maxIterations.getD DEFAULT_BUILD_LOOP_CONFIG.maxIterations,
    enableLocalBuildValidation :=
      config.enableLocalBuildValidation.getD DEFAULT_BUILD_LOOP_CONFIG.enableLocalBuildValidation }

/-- `BuildValidationResult` returned by `validateAndFixBuild`. -/
structure BuildValidationResult where
  files : List SrcFile
  buildSuccess : Bool
  iterations : Nat
  errors : List String
  lastError : Option String := none
deriving DecidableEq, Repr

/-- Oracles for the external collaborators of `validateAndFixBuild`:
`validate it files` is the outcome of `validator.validateProject` on build
iteration `it`; `errorSignature` is
`JSON.stringify(CompilationErrorUtils.getErrorSummary(errors))` (a function of
the missing `compilationValidator` module — the loop only compares its output
for equality); `fix it files errors` is the net new file list after the whole
LLM-fix block (LLM call, response parse, diff or full-content application; the
identity function represents a swallowed parse failure). -/
structure BuildEnv where
  validate : Nat → List SrcFile → ValidationResult
  errorSignature : List CompErr → String
  fix : Nat → List SrcFile → List CompErr → List SrcFile

/-- The `while (iteration < finalConfig.maxIterations)` loop of
`validateAndFixBuild`, with the loop-carried variables as arguments.
The source's stuck branch (`if same { consec++; if consec >= 2 stop }` with
the `else` branch resetting the counter and recording the new signature) is
flattened into one stop condition plus the updated counter/signature values;
the control flow is otherwise branch-for-branch that of the source. -/
def buildLoopGo (env : BuildEnv) (maxIterations : Nat) :
    Nat → List SrcFile → List String → String → Nat → BuildValidationResult
  | iteration, currentFiles, allErrors, lastErrorSignature, consecutiveSameErrors =>
    if h : iteration < maxIterations then
      let it := iteration + 1
      let validationResult := env.validate it currentFiles
      if validationResult.success then
        { files := currentFiles, buildSuccess := true, iterations := it, errors := allErrors }
      else
        let currentErrorSignature := env.errorSignature validationResult.errors
        let same := currentErrorSignature == lastErrorSignature
        if same = true ∧ 2 ≤ consecutiveSameErrors + 1 then
          { files := currentFiles, buildSuccess := false, iterations := it, errors := allErrors,
            lastError := some (stuckLastError validationResult.errors) }
        else
          let consecutiveSameErrors' := if same then consecutiveSameErrors + 1 else 0
          let lastErrorSignature' := if same then lastErrorSignature else currentErrorSignature
          let errorMessages := iterationErrorMessages validationResult.errors
          let allErrors' := allErrors ++ errorMessages
          if maxIterations ≤ it then
            { files := currentFiles, buildSuccess := false, iterations := it, errors := allErrors',
              lastError := some (String.intercalate "\n" errorMessages) }
          else if (filesToFixOf validationResult.errors currentFiles).length == 0 then
            { files := currentFiles, buildSuccess := false, iterations := it, errors := allErrors',
              lastError := some (String.intercalate "\n" errorMessages) }
          else
            buildLoopGo env maxIterations it
              (env.fix it currentFiles validationResult.errors)
              allErrors' lastErrorSignature' consecutiveSameErrors'
    else
      { files := currentFiles, buildSuccess := false, iterations := iteration, errors := allErrors,
        lastError := some "Max iterations reached" }
  termination_by iteration => maxIterations - iteration
  decreasing_by simp_wf; omega

/-- `validateAndFixBuild(files, projectDir, callLLM, appType, config)`:
merges the config with the defaults, returns immediately when local build
validation is disabled, and otherwise runs the iteration loop starting from
`iteration = 0`, empty error history, empty last signature, zero counter. -/
def validateAndFixBuild (files : List SrcFile) (env : BuildEnv)
    (config : PartialBuildLoopConfig) : BuildValidationResult :=
  let finalConfig := mergeBuildLoopConfig config
  if !finalConfig.enableLocalBuildValidation then
    { files := files, buildSuccess := true, iterations := 0, errors := [] }
  else
    buildLoopGo env finalConfig.maxIterations 0 files [] "" 0

/-- Ghost twin of `buildLoopGo` counting how many times `env.validate`
(i.e. a local build attempt) is run: one per entered loop iteration, on
exactly the same control flow. -/
def buildLoopCalls (env : BuildEnv) (maxIterations : Nat) :
    Nat → List SrcFile → String → Nat → Nat
  | iteration, currentFiles, lastErrorSignature, consecutiveSameErrors =>
    if h : iteration < maxIterations then
      let it := iteration + 1
      let validationResult := env.validate it currentFiles
      if validationResult.success then 1
      else
        let currentErrorSignature := env.errorSignature validationResult.errors
        let same := currentErrorSignature == lastErrorSignature
        if same = true ∧ 2 ≤ consecutiveSameErrors + 1 then 1
        else
          let consecutiveSameErrors' := if same then consecutiveSameErrors + 1 else 0
          let lastErrorSignature' := if same then lastErrorSignature else currentErrorSignature
          if maxIterations ≤ it then 1
          else if (filesToFixOf validationResult.errors currentFiles).length == 0 then 1
          else 1 + buildLoopCalls env maxIterations it
              (env.fix it currentFiles validationResult.errors)
              lastErrorSignature' consecutiveSameErrors'
    else 0
  termination_by iteration => maxIterations - iteration
  decreasing_by simp_wf; omega

/-- Number of local build attempts performed by `validateAndFixBuild`. -/
def validateAndFixBuildCalls (files : List SrcFile) (env : BuildEnv)
    (config : PartialBuildLoopConfig) : Nat :=
  let finalConfig := mergeBuildLoopConfig config
  if !finalConfig.enableLocalBuildValidation then 0
  else buildLoopCalls env finalConfig.maxIterations 0 files "" 0

theorem buildLoopGo_iterations_le (env : BuildEnv) (maxIterations : Nat) :
    ∀ d iteration currentFiles allErrors lastSig consec,
      maxIterations - iteration ≤ d → iteration ≤ maxIterations →
      (buildLoopGo env maxIterations iteration currentFiles allErrors
        lastSig consec).iterations ≤ maxIterations := by
  intro d
  induction d with
  | zero =>
    intro iteration cf ae ls cs hd hle
    rw [buildLoopGo]
    split
    · omega
    · simpa using hle
  | succ d ih =>
    intro iteration cf ae ls cs hd hle
    rw [buildLoopGo]
    split
    · dsimp only
      split
      · simpa using (by omega : iteration + 1 ≤ maxIterations)
      · split
        · simpa using (by omega : iteration + 1 ≤ maxIterations)
        · split
          · simpa using (by omega : iteration + 1 ≤ maxIterations)
          · split
            · simpa using (by omega : iteration + 1 ≤ maxIterations)
            · exact ih _ _ _ _ _ (by omega) (by omega)
    · simpa using hle

theorem buildLoopCalls_le (env : BuildEnv) (maxIterations : Nat) :
    ∀ d iteration currentFiles lastSig consec,
      maxIterations - iteration ≤ d →
      buildLoopCalls env maxIterations iteration currentFiles lastSig consec ≤
        maxIterations - iteration := by
  intro d
  induction d with
  | zero =>
    intro iteration cf ls cs hd
    rw [buildLoopCalls]
    split
    · omega
    · omega
  | succ d ih =>
    intro iteration cf ls cs hd
    rw [buildLoopCalls]
    split
    · dsimp only
      split
      · omega
      · split
        · omega
        · split
          · omega
          · split
            · omega
            · have key : ∀ x : Nat, x ≤ maxIterations - (iteration + 1) →
                  1 + x ≤ maxIterations - iteration := by omega
              exact key _ (ih _ _ _ _ (by omega))
    · omega

/-- **C5.** `validateAndFixBuild` never performs more than `maxIterations`
(default 3) local build attempts, even when every iteration's error differs,
and the returned `iterations` count never exceeds `maxIterations`.  The third
conjunct records that the default configuration's `maxIterations` is 3. -/
theorem C5_buildLoop_iteration_bound
    (files : List SrcFile) (env : BuildEnv) (config : PartialBuildLoopConfig) :
    (validateAndFixBuild files env config).iterations ≤
      (mergeBuildLoopConfig config).maxIterations ∧
    validateAndFixBuildCalls files env config ≤
      (mergeBuildLoopConfig config).maxIterations ∧
    DEFAULT_BUILD_LOOP_CONFIG.maxIterations = 3 := by
  refine ⟨?_, ?_, rfl⟩
  · unfold validateAndFixBuild
    dsimp only
    split
    · simp
    · exact buildLoopGo_iterations_le env (mergeBuildLoopConfig config).maxIterations
        (mergeBuildLoopConfig config).maxIterations 0 files [] "" 0 (by omega) (by omega)
  · unfold validateAndFixBuildCalls
    dsimp only
    split
    · simp
    · have := buildLoopCalls_le env (mergeBuildLoopConfig config).maxIterations
        (mergeBuildLoopConfig config).maxIterations 0 files "" 0 (by omega)
      omega

/-- **C10.** With `enableLocalBuildValidation = false`, `validateAndFixBuild`
performs zero build attempts and returns the input files unchanged with
`buildSuccess = true`, `iterations = 0` and an empty error list. -/
theorem C10_buildLoop_disabled (files : List SrcFile) (env : BuildEnv)
    (config : PartialBuildLoopConfig)
    (h : (mergeBuildLoopConfig config).enableLocalBuildValidation = false) :
    validateAndFixBuild files env config =
      { files := files, buildSuccess := true, iterations := 0, errors := [],
        lastError := none } ∧
    validateAndFixBuildCalls files env config = 0 := by
  unfold validateAndFixBuild validateAndFixBuildCalls
  simp [h]

/-- A trivially succeeding build environment, used to instantiate theorems. -/
def passEnv : BuildEnv :=
  { validate := fun _ _ => { success := true, errors := [] },
    errorSignature := fun _ => "",
    fix := fun _ cf _ => cf }

theorem C10_buildLoop_disabled_witness :
    validateAndFixBuild [⟨"app.ts", "x"⟩] passEnv
        { enableLocalBuildValidation := some false } =
      { files := [⟨"app.ts", "x"⟩], buildSuccess := true, iterations := 0,
        errors := [], lastError := none } ∧
    validateAndFixBuildCalls [⟨"app.ts", "x"⟩] passEnv
        { enableLocalBuildValidation := some false } = 0 :=
  C10_buildLoop_disabled _ _ _ rfl

/-- A build environment that fails every attempt with the same single error
and the same nonempty signature, and whose fix step leaves the files
unchanged; used to exercise the stuck-detection path. -/
def stuckEnv : BuildEnv :=
  { validate := fun _ _ =>
      { success := false, errors := [{ file := "a.ts", line := some 1, message := "boom" }] },
    errorSignature := fun _ => "SIG",
    fix := fun _ cf _ => cf }

/-- **C2 (counterexample).** The claim says: two consecutive iterations with an
identical normalized signature terminate the loop at that second iteration,
never running a third.  With every build attempt failing identically and
`maxIterations = 5`, iterations 1 and 2 already produce the identical
signature, yet the loop returns `iterations = 3` after a third build attempt
(`validateAndFixBuildCalls = 3`), not 2. -/
theorem C2_counterexample :
    (validateAndFixBuild [⟨"a.ts", "x"⟩] stuckEnv
        { maxIterations := some 5, enableLocalBuildValidation := some true }).iterations = 3 ∧
    (validateAndFixBuild [⟨"a.ts", "x"⟩] stuckEnv
        { maxIterations := some 5, enableLocalBuildValidation := some true }).buildSuccess
      = false ∧
    validateAndFixBuildCalls [⟨"a.ts", "x"⟩] stuckEnv
        { maxIterations := some 5, enableLocalBuildValidation := some true } = 3 := by
  refine ⟨?_, ?_, ?_⟩ <;>
    simp [validateAndFixBuild, validateAndFixBuildCalls, buildLoopGo, buildLoopCalls,
      stuckEnv, mergeBuildLoopConfig, DEFAULT_BUILD_LOOP_CONFIG, filesToFixOf,
      dedupKeys, dedupKeysGo]

/-- The file set entering the next build iteration: the result of the LLM-fix
block of iteration `n` applied to iteration `n`'s files and errors. -/
def nextBuildFiles (env : BuildEnv) (n : Nat) (cf : List SrcFile) : List SrcFile :=
  env.fix n cf (env.validate n cf).errors

/-- Helper for C2: stepwise evaluation of the first three loop iterations when
the three build attempts along the actual trajectory fail with the same
nonempty signature. -/
theorem buildLoopGo_stuck_third (env : BuildEnv) (S : String) (M : Nat) (files : List SrcFile)
    (f2 : List SrcFile) (f3 : List SrcFile)
    (hf2 : nextBuildFiles env 1 files = f2)
    (hf3 : nextBuildFiles env 2 f2 = f3)
    (hfail1 : (env.validate 1 files).success = false)
    (hfail2 : (env.validate 2 f2).success = false)
    (hfail3 : (env.validate 3 f3).success = false)
    (hsig1 : env.errorSignature (env.validate 1 files).errors = S)
    (hsig2 : env.errorSignature (env.validate 2 f2).errors = S)
    (hsig3 : env.errorSignature (env.validate 3 f3).errors = S)
    (hS : (S == "") = false)
    (hftf1 : ((filesToFixOf (env.validate 1 files).errors files).length == 0) = false)
    (hftf2 : ((filesToFixOf (env.validate 2 f2).errors f2).length == 0) = false)
    (hmax : 3 ≤ M) :
    ((buildLoopGo env M 0 files [] "" 0).buildSuccess = false ∧
       (buildLoopGo env M 0 files [] "" 0).iterations = 3) ∧
      buildLoopCalls env M 0 files "" 0 = 3 := by
  simp only [nextBuildFiles] at hf2 hf3
  rw [buildLoopGo, dif_pos (show 0 < M by omega)]
  rw [buildLoopCalls, dif_pos (show 0 < M by omega)]
  simp only [show (0 + 1 : Nat) = 1 from rfl, hfail1, hsig1, hS, hftf1, hf2]
  simp [show ¬ (M ≤ 1) by omega]
  rw [buildLoopGo, dif_pos (show 1 < M by omega)]
  rw [buildLoopCalls, dif_pos (show 1 < M by omega)]
  simp only [show (1 + 1 : Nat) = 2 from rfl, hfail2, hsig2, hftf2, hf3]
  simp [show ¬ (M ≤ 2) by omega]
  rw [buildLoopGo, dif_pos (show 2 < M by omega)]
  rw [buildLoopCalls, dif_pos (show 2 < M by omega)]
  simp only [show (2 + 1 : Nat) = 3 from rfl, hfail3, hsig3]
  simp

/-- **C2 (amended).** When consecutive build iterations keep producing errors
with one identical nonempty normalized signature (and the fix step keeps
finding files to fix), the loop stops at the *third* consecutive
identical-signature iteration — when the stuck counter reaches 2 — returning
`buildSuccess = false`; the second identical iteration still proceeds to an
LLM fix and one more build attempt. -/
theorem C2_stuck_stops_at_third_iteration
    (files : List SrcFile) (env : BuildEnv) (config : PartialBuildLoopConfig) (S : String)
    (f2 : List SrcFile) (f3 : List SrcFile)
    (hf2 : nextBuildFiles env 1 files = f2)
    (hf3 : nextBuildFiles env 2 f2 = f3)
    (hfail1 : (env.validate 1 files).success = false)
    (hfail2 : (env.validate 2 f2).success = false)
    (hfail3 : (env.validate 3 f3).success = false)
    (hsig1 : env.errorSignature (env.validate 1 files).errors = S)
    (hsig2 : env.errorSignature (env.validate 2 f2).errors = S)
    (hsig3 : env.errorSignature (env.validate 3 f3).errors = S)
    (hS : S ≠ "")
    (hftf1 : (filesToFixOf (env.validate 1 files).errors files).length ≠ 0)
    (hftf2 : (filesToFixOf (env.validate 2 f2).errors f2).length ≠ 0)
    (henable : (mergeBuildLoopConfig config).enableLocalBuildValidation = true)
    (hmax : 3 ≤ (mergeBuildLoopConfig config).maxIterations) :
    (validateAndFixBuild files env config).buildSuccess = false ∧
    (validateAndFixBuild files env config).iterations = 3 ∧
    validateAndFixBuildCalls files env config = 3 := by
  have key := buildLoopGo_stuck_third env S (mergeBuildLoopConfig config).maxIterations
    files f2 f3 hf2 hf3 hfail1 hfail2 hfail3 hsig1 hsig2 hsig3
    (by simpa using hS) (by simpa using hftf1) (by simpa using hftf2) hmax
  unfold validateAndFixBuild validateAndFixBuildCalls
  dsimp only
  rw [henable]
  simp only [Bool.not_true, Bool.false_eq_true, if_false]
  exact ⟨key.1.1, key.1.2, key.2⟩

theorem C2_stuck_stops_at_third_iteration_witness :
    (validateAndFixBuild [⟨"a.ts", "x"⟩] stuckEnv
        { maxIterations := some 5, enableLocalBuildValidation := some true }).buildSuccess
        = false ∧
    (validateAndFixBuild [⟨"a.ts", "x"⟩] stuckEnv
        { maxIterations := some 5, enableLocalBuildValidation := some true }).iterations = 3 ∧
    validateAndFixBuildCalls [⟨"a.ts", "x"⟩] stuckEnv
        { maxIterations := some 5, enableLocalBuildValidation := some true } = 3 :=
  C2_stuck_stops_at_third_iteration [⟨"a.ts", "x"⟩] stuckEnv
    { maxIterations := some 5, enableLocalBuildValidation := some true } "SIG"
    [⟨"a.ts", "x"⟩] [⟨"a.ts", "x"⟩] rfl rfl rfl rfl rfl rfl rfl rfl
    (by decide) (by decide) (by decide) rfl (by decide)

/-! ## JS string primitives used throughout the worker and parser -/

/-- Prefix test on character lists. -/
def charsHasPre : List Char → List Char → Bool
  | [], _ => true
  | _ :: _, [] => false
  | c :: cs, d :: ds => c == d && charsHasPre cs ds

/-- Substring containment on character lists (`sub` occurs in `s`). -/
def charsIncludes (sub : List Char) : List Char → Bool
  | [] => sub.isEmpty
  | d :: ds => charsHasPre sub (d :: ds) || charsIncludes sub ds

/-- JS `s.includes(sub)`. -/
def jsIncludes (s sub : String) : Bool :=
  charsIncludes sub.data s.data

/-! ## Generation Gateway: `callClaudeWithLogging` -/

/-- Per-stage model configuration (`STAGE_MODEL_CONFIG[stageType]` of the
`llmOptimizer` module, which is not among the provided sources): model id,
max-token budget and optional fallback model.  The float `temperature` field
and the display-only cost computation are not modelled. -/
structure ModelConfig where
  model : String
  maxTokens : Nat
  fallbackModel : Option String := none
deriving DecidableEq, Repr

/-- Outcome of one `fetch` of the completion endpoint: an HTTP response with
status code and body text, or a thrown network-level error (`isTypeError`
records `error instanceof TypeError`). -/
inductive ApiOutcome
  | resp (status : Nat) (text : String)
  | thrown (isTypeError : Bool) (msg : String)
deriving DecidableEq, Repr

/-- The observable trace of one `callClaudeWithLogging` call: the returned
text or thrown message, every `setTimeout` sleep duration in order (throttle
delays and backoff delays), and the `body.model` used by each HTTP request. -/
structure ClaudeCallTrace where
  result : Except String String
  sleeps : List Nat
  modelsUsed : List String
deriving Repr

/-- The `for (attempt = 1; attempt <= maxRetries; attempt++)` loop of
`callClaudeWithLogging`.  Internal `throw` statements inside the `try` block
go through the same `catch` clause as network errors, so the non-ok response
branches reproduce the catch logic (`attempt === maxRetries` rethrows;
`TypeError` or a message containing "fetch" retries with backoff; anything
else rethrows). -/
def callClaudeGo (api : Nat → ApiOutcome) (cfg : ModelConfig)
    (maxRetries baseDelay : Nat) :
    Nat → String → List Nat → List String → ClaudeCallTrace
  | attempt, model, sleeps, models =>
    if h : attempt ≤ maxRetries then
      let sleeps := if 1 < attempt then sleeps ++ [min (500 * attempt) 2000] else sleeps
      let models := models ++ [model]
      match api attempt with
      | .resp status text =>
        if 200 ≤ status ∧ status < 300 then
          { result := .ok text, sleeps := sleeps, modelsUsed := models }
        else if status = 529 ∨ status = 429 then
          if attempt < maxRetries then
            let delay := baseDelay * 2 ^ (attempt - 1)
            let model' :=
              if attempt = maxRetries - 1 ∧ cfg.fallbackModel.isSome then
                cfg.fallbackModel.getD model
              else model
            callClaudeGo api cfg maxRetries baseDelay (attempt + 1) model'
              (sleeps ++ [delay]) models
          else
            { result := .error ("Claude API overloaded after " ++ toString maxRetries ++
                " attempts. Please try again later."),
              sleeps := sleeps, modelsUsed := models }
        else if 500 ≤ status then
          if attempt < maxRetries then
            let delay := baseDelay * 2 ^ (attempt - 1)
            let model' :=
              if attempt = maxRetries - 1 ∧ cfg.fallbackModel.isSome then
                cfg.fallbackModel.getD model
              else model
            callClaudeGo api cfg maxRetries baseDelay (attempt + 1) model'
              (sleeps ++ [delay]) models
          else
            { result := .error ("Claude API server error after " ++ toString maxRetries ++
                " attempts. Please try again later."),
              sleeps := sleeps, modelsUsed := models }
        else
          -- `throw new Error("Claude API error: ...")`, handled by the catch clause
          let msg := "Claude API error: " ++ toString status ++ " " ++ text
          if attempt = maxRetries then
            { result := .error msg, sleeps := sleeps, modelsUsed := models }
          else if jsIncludes msg "fetch" then
            callClaudeGo api cfg maxRetries baseDelay (attempt + 1) model
              (sleeps ++ [baseDelay * 2 ^ (attempt - 1)]) models
          else
            { result := .error msg, sleeps := sleeps, modelsUsed := models }
      | .thrown isTypeError msg =>
        if attempt = maxRetries then
          { result := .error msg, sleeps := sleeps, modelsUsed := models }
        else if isTypeError || jsIncludes msg "fetch" then
          callClaudeGo api cfg maxRetries baseDelay (attempt + 1) model
            (sleeps ++ [baseDelay * 2 ^ (attempt - 1)]) models
        else
          { result := .error msg, sleeps := sleeps, modelsUsed := models }
    else
      { result := .error ("Failed to get response from Claude API after " ++
          toString maxRetries ++ " attempts"),
        sleeps := sleeps, modelsUsed := models }
  termination_by attempt => maxRetries + 1 - attempt
  decreasing_by all_goals (simp_wf; omega)

/-- Oracle environment for one `callClaudeWithLogging` call site. -/
structure ClaudeEnv where
  hasApiKey : Bool := true
  modelConfig : ModelConfig
  api : Nat → ApiOutcome

/-- The effective model configuration: the token budget is doubled (capped at
40000) when the stage name marks a retry of the stage-3 code generator. -/
def effectiveModelConfig (env : ClaudeEnv) (stageName : String)
    (isStage3 : Bool) : ModelConfig :=
  if jsIncludes stageName "(Retry)" && isStage3 then
    { env.modelConfig with maxTokens := min (env.modelConfig.maxTokens * 2) 40000 }
  else env.modelConfig

/-- `callClaudeWithLogging(systemPrompt, userPrompt, stageName, stageType)`:
checks the API key, computes the effective model configuration, and runs the
retry loop with `maxRetries = 3`, `baseDelay = 1000`, starting from attempt 1
with the configured model as `body.model`. -/
def callClaudeWithLogging (env : ClaudeEnv) (stageName : String)
    (isStage3 : Bool) : ClaudeCallTrace :=
  if !env.hasApiKey then
    { result := .error "Claude API key not set in environment",
      sleeps := [], modelsUsed := [] }
  else
    callClaudeGo env.api (effectiveModelConfig env stageName isStage3) 3 1000 1
      (effectiveModelConfig env stageName isStage3).model [] []

theorem callClaudeGo_models_le (api : Nat → ApiOutcome) (cfg : ModelConfig)
    (maxRetries baseDelay : Nat) :
    ∀ d attempt model sleeps models, maxRetries + 1 - attempt ≤ d →
      (callClaudeGo api cfg maxRetries baseDelay attempt model sleeps
        models).modelsUsed.length ≤ models.length + (maxRetries + 1 - attempt) := by
  intro d
  induction d with
  | zero =>
    intro attempt model sleeps models hd
    rw [callClaudeGo]
    split
    · omega
    · dsimp only; omega
  | succ d ih =>
    intro attempt model sleeps models hd
    rw [callClaudeGo]
    split
    · dsimp only
      rcases hapi : api attempt with ⟨status, text⟩ | ⟨isTE, msg⟩ <;> simp only [hapi] <;>
        repeat' split
      all_goals
        first
          | (refine le_trans (ih _ _ _ _ (by omega)) ?_; simp; omega)
          | (simp; omega)
    · dsimp only; omega

/-- Overload (429/529) or server-error (5xx) HTTP responses: the failures the
retry loop handles with backoff. -/
def retriableFailure : ApiOutcome → Prop
  | .resp status _ => status = 529 ∨ status = 429 ∨ 500 ≤ status
  | .thrown _ _ => False

theorem callClaudeGo_attempt3 (api : Nat → ApiOutcome) (cfg : ModelConfig)
    (model : String) (sleeps : List Nat) (models : List String) :
    (callClaudeGo api cfg 3 1000 3 model sleeps models).modelsUsed
        = models ++ [model] ∧
      (callClaudeGo api cfg 3 1000 3 model sleeps models).sleeps
        = sleeps ++ [1500] := by
  rw [callClaudeGo, dif_pos (by omega : (3:Nat) ≤ 3)]
  dsimp only
  rcases hapi : api 3 with ⟨status, text⟩ | ⟨isTE, msg⟩ <;> simp only [hapi]
  · split
    · simp
    · split
      · rw [if_neg (by omega : ¬ ((3:Nat) < 3))]
        simp
      · split
        · rw [if_neg (by omega : ¬ ((3:Nat) < 3))]
          simp
        · simp
  · simp

theorem callClaudeGo_attempt2 (api : Nat → ApiOutcome) (cfg : ModelConfig) (fb : String)
    (hfb : cfg.fallbackModel = some fb)
    (h2 : retriableFailure (api 2)) (m : String) :
    (callClaudeGo api cfg 3 1000 2 m [1000] [m]).modelsUsed = [m, m, fb] ∧
      (callClaudeGo api cfg 3 1000 2 m [1000] [m]).sleeps = [1000, 1000, 2000, 1500] := by
  rcases hapi2 : api 2 with ⟨status2, text2⟩ | ⟨isTE2, msg2⟩
  swap
  · rw [hapi2] at h2; exact absurd h2 (by simp [retriableFailure])
  rw [hapi2] at h2
  simp only [retriableFailure] at h2
  rw [callClaudeGo, dif_pos (by omega : (2:Nat) ≤ 3)]
  dsimp only
  simp only [hapi2]
  rw [if_pos (by omega : (1:Nat) < 2)]
  rw [if_neg (by omega : ¬ (200 ≤ status2 ∧ status2 < 300))]
  have key := callClaudeGo_attempt3 api cfg fb ([1000, 1000] ++ [1000 * 2 ^ (2 - 1)]) [m, m]
  by_cases hov2 : status2 = 529 ∨ status2 = 429
  · rw [if_pos hov2, if_pos (by omega : (2:Nat) < 3)]
    simpa [hfb] using key
  · rw [if_neg hov2, if_pos (by omega : 500 ≤ status2), if_pos (by omega : (2:Nat) < 3)]
    simpa [hfb] using key

theorem callClaudeGo_fallback (api : Nat → ApiOutcome) (cfg : ModelConfig) (fb : String)
    (hfb : cfg.fallbackModel = some fb)
    (h1 : retriableFailure (api 1)) (h2 : retriableFailure (api 2)) :
    ∀ m, (callClaudeGo api cfg 3 1000 1 m [] []).modelsUsed = [m, m, fb] ∧
      (callClaudeGo api cfg 3 1000 1 m [] []).sleeps = [1000, 1000, 2000, 1500] := by
  intro m
  rcases hapi1 : api 1 with ⟨status1, text1⟩ | ⟨isTE1, msg1⟩
  swap
  · rw [hapi1] at h1; exact absurd h1 (by simp [retriableFailure])
  rw [hapi1] at h1
  simp only [retriableFailure] at h1
  rw [callClaudeGo, dif_pos (by omega : (1:Nat) ≤ 3)]
  dsimp only
  simp only [hapi1]
  rw [if_neg (by omega : ¬ ((1:Nat) < 1))]
  rw [if_neg (by omega : ¬ (200 ≤ status1 ∧ status1 < 300))]
  have key := callClaudeGo_attempt2 api cfg fb hfb h2 m
  by_cases hov1 : status1 = 529 ∨ status1 = 429
  · rw [if_pos hov1, if_pos (by omega : (1:Nat) < 3)]
    simpa [hfb] using key
  · rw [if_neg hov1, if_pos (by omega : 500 ≤ status1), if_pos (by omega : (1:Nat) < 3)]
    simpa [hfb] using key

theorem effectiveModelConfig_fallback (env : ClaudeEnv) (stageName : String)
    (isStage3 : Bool) (fb : String) (hfb : env.modelConfig.fallbackModel = some fb) :
    (effectiveModelConfig env stageName isStage3).fallbackModel = some fb := by
  unfold effectiveModelConfig
  split <;> simpa using hfb

theorem effectiveModelConfig_model (env : ClaudeEnv) (stageName : String)
    (isStage3 : Bool) :
    (effectiveModelConfig env stageName isStage3).model = env.modelConfig.model := by
  unfold effectiveModelConfig
  split <;> rfl

/-- **C9 (amended).** `callClaudeWithLogging` makes at most 3 request attempts
in total.  The waits between attempts are a deterministic exponential backoff
(`1000 · 2^(attempt-1)` ms after a failed attempt) plus a fixed throttle
delay (`min(500·attempt, 2000)` ms before attempts 2 and 3) — no jitter is
applied.  When attempts 1 and 2 fail with overload (429/529) or server-error
(5xx) responses and a fallback model is configured, the model is switched on
the penultimate retry, so the 3rd request uses the fallback model: the
request-model trace is `[m, m, fallback]` and the sleep trace is exactly
`[1000, 1000, 2000, 1500]`. -/
theorem C9_claude_retry_and_fallback (env : ClaudeEnv) (stageName : String)
    (isStage3 : Bool) (fb : String)
    (hkey : env.hasApiKey = true)
    (hfb : env.modelConfig.fallbackModel = some fb)
    (h1 : retriableFailure (env.api 1)) (h2 : retriableFailure (env.api 2)) :
    (∀ (env2 : ClaudeEnv) (sn : String) (b : Bool),
        (callClaudeWithLogging env2 sn b).modelsUsed.length ≤ 3) ∧
    (callClaudeWithLogging env stageName isStage3).modelsUsed
        = [env.modelConfig.model, env.modelConfig.model, fb] ∧
    (callClaudeWithLogging env stageName isStage3).sleeps
        = [1000, 1000, 2000, 1500] := by
  refine ⟨?_, ?_, ?_⟩
  · intro env2 sn b
    unfold callClaudeWithLogging
    split
    · simp
    · have := callClaudeGo_models_le env2.api (effectiveModelConfig env2 sn b) 3 1000 3 1
        (effectiveModelConfig env2 sn b).model [] [] (by omega)
      simpa using this
  · have key := callClaudeGo_fallback env.api (effectiveModelConfig env stageName isStage3)
      fb (effectiveModelConfig_fallback env stageName isStage3 fb hfb) h1 h2
      (effectiveModelConfig env stageName isStage3).model
    unfold callClaudeWithLogging
    rw [hkey]
    simpa [effectiveModelConfig_model] using key.1
  · have key := callClaudeGo_fallback env.api (effectiveModelConfig env stageName isStage3)
      fb (effectiveModelConfig_fallback env stageName isStage3 fb hfb) h1 h2
      (effectiveModelConfig env stageName isStage3).model
    unfold callClaudeWithLogging
    rw [hkey]
    simpa using key.2

/-- A completion-endpoint oracle that answers 429 to every request; the
configured call site has a fallback model. -/
def overloadEnv : ClaudeEnv :=
  { modelConfig :=
      { model := "claude-sonnet", maxTokens := 8000,
        fallbackModel := some "claude-haiku" },
    api := fun _ => .resp 429 "Overloaded" }

/-- **C9 (counterexample).** The claim says the waits are exponential backoff
*plus jitter*.  The code computes every wait deterministically: with a 429 on
every attempt the sleep trace is exactly
`[1000 (backoff), 1000 (throttle), 2000 (backoff), 1500 (throttle)]` — a
fixed value with no random component (`callClaudeWithLogging` has no
randomness source at all). -/
theorem C9_counterexample :
    (callClaudeWithLogging overloadEnv "Stage 1" false).sleeps
        = [1000, 1000, 2000, 1500] ∧
    (callClaudeWithLogging overloadEnv "Stage 1" false).modelsUsed
        = ["claude-sonnet", "claude-sonnet", "claude-haiku"] ∧
    (callClaudeWithLogging overloadEnv "Stage 1" false).result
        = .error ("Claude API overloaded after " ++ toString 3 ++
            " attempts. Please try again later.") := by
  refine ⟨?_, ?_, ?_⟩ <;>
    simp [callClaudeWithLogging, effectiveModelConfig, callClaudeGo, overloadEnv,
      jsIncludes, charsIncludes, charsHasPre]

theorem C9_claude_retry_and_fallback_witness :
    (∀ (env2 : ClaudeEnv) (sn : String) (b : Bool),
        (callClaudeWithLogging env2 sn b).modelsUsed.length ≤ 3) ∧
    (callClaudeWithLogging overloadEnv "Stage 1" false).modelsUsed
        = ["claude-sonnet", "claude-sonnet", "claude-haiku"] ∧
    (callClaudeWithLogging overloadEnv "Stage 1" false).sleeps
        = [1000, 1000, 2000, 1500] :=
  C9_claude_retry_and_fallback overloadEnv "Stage 1" false "claude-haiku"
    rfl rfl (Or.inr (Or.inl rfl)) (Or.inr (Or.inl rfl))

/-! ## A small JS-regex engine

The deployment-error parser is a cascade of JS regex literals.  Each literal
is embedded as an explicit pattern AST (`List RNode`, one node per regex
construct, in source order), and one backtracking matcher reproduces the JS
semantics these patterns rely on: greedy/lazy quantifiers over
single-character atoms, ordered alternation, optional groups, negative
lookahead, `$`, the `i` flag, and `exec`-style global scanning. -/

/-- One item of a regex character class. -/
inductive ClsItem
  | ch (c : Char)
  | range (lo hi : Char)
  | digit
  | space
deriving DecidableEq, Repr

/-- A single-character matcher: a (possibly negated) class, or the dot. -/
inductive RAtom
  | cls (neg : Bool) (items : List ClsItem)
  | dot
deriving DecidableEq, Repr

/-- JS `\s` (the ASCII whitespace characters; the Unicode space classes do
not occur in the build logs this parser handles). -/
def jsIsSpace (c : Char) : Bool :=
  c == ' ' || c == '\t' || c == '\n' || c == '\r' || c == '\x0b' || c == '\x0c'

def clsItemMatch (ci : Bool) (it : ClsItem) (c : Char) : Bool :=
  match it with
  | .ch d => if ci then c.toLower == d.toLower else c == d
  | .range lo hi => lo ≤ c && c ≤ hi
  | .digit => c.isDigit
  | .space => jsIsSpace c

def atomMatch (ci : Bool) (a : RAtom) (c : Char) : Bool :=
  match a with
  | .cls neg items =>
    let m := items.any (fun it => clsItemMatch ci it c)
    if neg then !m else m
  | .dot => !(c == '\n' || c == '\r' || c == '\u2028' || c == '\u2029')

/-- A regex pattern node.  Quantifiers apply to single-character atoms only
(every quantified subterm of the embedded patterns is a character class or
the dot), which keeps the matcher structurally recursive. -/
inductive RNode
  | lit (s : String)
  | atom (a : RAtom)
  | starG (a : RAtom)
  | plusG (a : RAtom)
  | plusL (a : RAtom)
  | optA (a : RAtom)
  | grp (idx : Nat) (xs : List RNode)
  | opt (xs : List RNode)
  | alt (xss : List (List RNode))
  | nla (xs : List RNode)
  | eos
deriving Repr

/-- Captures: group index to matched text, most recent assignment first. -/
abbrev Caps := List (Nat × String)

def capGet (caps : Caps) (i : Nat) : Option String :=
  (caps.find? (fun p => p.1 == i)).map (fun p => p.2)

/-- Consume a literal character sequence. -/
def litChomp (ci : Bool) : List Char → List Char → Option (List Char)
  | [], s => some s
  | _ :: _, [] => none
  | c :: cs, d :: ds =>
    if (if ci then c.toLower == d.toLower else c == d) then litChomp ci cs ds else none

/-- Remainders after zero or more matches of `a`, longest consumption first
(greedy preference order). -/
def starRems (ci : Bool) (a : RAtom) : List Char → List (List Char)
  | [] => [[]]
  | c :: s' =>
    if atomMatch ci a c then starRems ci a s' ++ [c :: s']
    else [c :: s']

/-- Remainders after one or more matches of `a`, shortest consumption first
(lazy preference order). -/
def lazyRems (ci : Bool) (a : RAtom) : List Char → List (List Char)
  | [] => []
  | c :: s' =>
    if atomMatch ci a c then s' :: lazyRems ci a s'
    else []

/-- The text consumed between a starting suffix and a remaining suffix. -/
def takePre (s s' : List Char) : String :=
  String.mk (s.take (s.length - s'.length))

mutual

/-- All ways one node can match a prefix of `s`, in JS backtracking
preference order; each way is a remaining suffix plus updated captures. -/
def mnode (ci : Bool) : RNode → List Char → Caps → List (List Char × Caps)
  | .lit l, s, caps =>
    match litChomp ci l.data s with
    | some s' => [(s', caps)]
    | none => []
  | .atom a, s, caps =>
    match s with
    | [] => []
    | c :: s' => if atomMatch ci a c then [(s', caps)] else []
  | .starG a, s, caps => (starRems ci a s).map (fun r => (r, caps))
  | .plusG a, s, caps =>
    match s with
    | [] => []
    | c :: s' =>
      if atomMatch ci a c then (starRems ci a s').map (fun r => (r, caps)) else []
  | .plusL a, s, caps => (lazyRems ci a s).map (fun r => (r, caps))
  | .optA a, s, caps =>
    match s with
    | [] => [(s, caps)]
    | c :: s' => if atomMatch ci a c then [(s', caps), (s, caps)] else [(s, caps)]
  | .grp i xs, s, caps =>
    (mseq ci xs s caps).map (fun sc => (sc.1, (i, takePre s sc.1) :: sc.2))
  | .opt xs, s, caps => mseq ci xs s caps ++ [(s, caps)]
  | .alt xss, s, caps => malts ci xss s caps
  | .nla xs, s, caps => if (mseq ci xs s caps).isEmpty then [(s, caps)] else []
  | .eos, s, caps => if s.isEmpty then [(s, caps)] else []

/-- All ways a node sequence can match a prefix of `s`, preference order. -/
def mseq (ci : Bool) : List RNode → List Char → Caps → List (List Char × Caps)
  | [], s, caps => [(s, caps)]
  | n :: ns, s, caps =>
    (mnode ci n s caps).flatMap (fun sc => mseq ci ns sc.1 sc.2)

/-- Ordered alternation. -/
def malts (ci : Bool) : List (List RNode) → List Char → Caps → List (List Char × Caps)
  | [], _, _ => []
  | xs :: rest, s, caps => mseq ci xs s caps ++ malts ci rest s caps

end

/-- Match the pattern at the start of `s`: the JS backtracking engine's first
success.  Returns the consumed length and the captures. -/
def matchHere (ci : Bool) (pat : List RNode) (s : List Char) : Option (Nat × Caps) :=
  match mseq ci pat s [] with
  | [] => none
  | sc :: _ => some (s.length - sc.1.length, sc.2)

/-- Scan for the leftmost match starting at or after `pos` (`s` is the suffix
of the subject starting at `pos`).  Returns (start, length, captures). -/
def scanFrom (ci : Bool) (pat : List RNode) : List Char → Nat → Option (Nat × Nat × Caps)
  | s, pos =>
    match matchHere ci pat s with
    | some lc => some (pos, lc.1, lc.2)
    | none =>
      match s with
      | [] => none
      | _ :: s' => scanFrom ci pat s' (pos + 1)

/-- `exec` in a `while` loop over a `/g` regex: successive leftmost matches,
resuming at each match end.  None of the embedded patterns can match the
empty string; the `max len 1` advance (JS would loop forever on an empty
match) and the fuel only guard termination. -/
def execAllFrom (ci : Bool) (pat : List RNode) (s : List Char) :
    Nat → Nat → List (Nat × Nat × Caps)
  | 0, _ => []
  | fuel + 1, i =>
    match scanFrom ci pat (s.drop i) i with
    | none => []
    | some m => m :: execAllFrom ci pat s fuel (m.1 + max m.2.1 1)

def execAll (ci : Bool) (pat : List RNode) (str : String) : List (Nat × Nat × Caps) :=
  execAllFrom ci pat str.data (str.data.length + 2) 0

/-- First match anywhere (JS `String.prototype.match` with a non-global
regex), returning (start, length, captures). -/
def jsMatchFirst (ci : Bool) (pat : List RNode) (str : String) :
    Option (Nat × Nat × Caps) :=
  scanFrom ci pat str.data 0

/-- `String.prototype.replace` with a `/g` regex and a plain replacement
string (none of the embedded replacements uses `$`-references). -/
def replaceAllGo (ci : Bool) (pat : List RNode) (repl : List Char) :
    Nat → List Char → List Char
  | 0, s => s
  | fuel + 1, s =>
    match scanFrom ci pat s 0 with
    | none => s
    | some m =>
      s.take m.1 ++ repl ++
        replaceAllGo ci pat repl fuel (s.drop (m.1 + max m.2.1 1))

def jsReplaceAll (ci : Bool) (pat : List RNode) (repl : String) (str : String) : String :=
  String.mk (replaceAllGo ci pat repl.data (str.data.length + 1) str.data)

/-! ## JS string helpers used by the parser and the worker -/

def trimStartChars : List Char → List Char
  | [] => []
  | c :: cs => if jsIsSpace c then trimStartChars cs else c :: cs

/-- JS `String.prototype.trim` (ASCII whitespace). -/
def jsTrim (s : String) : String :=
  String.mk ((trimStartChars (trimStartChars s.data.reverse).reverse))

/-- JS `toLowerCase` (ASCII case mapping suffices for these logs). -/
def jsToLower (s : String) : String := String.mk (s.data.map Char.toLower)

/-- JS `s.substring(a, b)` for `a ≤ b` (clamping to the string length). -/
def jsSubstring (s : String) (a b : Nat) : String :=
  String.mk ((s.data.drop a).take (b - a))

def parseIntGo : Nat → List Char → Nat
  | acc, [] => acc
  | acc, c :: cs => if c.isDigit then parseIntGo (acc * 10 + (c.toNat - 48)) cs else acc

/-- JS `parseInt` on the digit strings captured by `(\\d+)` groups. -/
def parseIntD (s : String) : Nat := parseIntGo 0 s.data

/-! ## Error-signature comparison (`createErrorSignature`, `areErrorsSimilar`) -/

/-- The atoms used by the worker's signature normalization. -/
def wsA : RAtom := .cls false [.space]
def digitA : RAtom := .cls false [.digit]
def notSpaceColonA : RAtom := .cls true [.space, .ch ':']

/-- `/\\d+:\\d+/g` -/
def sigLineColPat : List RNode := [.plusG digitA, .lit ":", .plusG digitA]
/-- `/line \\d+/gi` -/
def sigLinePat : List RNode := [.lit "line ", .plusG digitA]
/-- `/at line \\d+/gi` -/
def sigAtLinePat : List RNode := [.lit "at line ", .plusG digitA]
/-- `/\\(\\d+:\\d+\\)/g` -/
def sigParenPat : List RNode :=
  [.lit "(", .plusG digitA, .lit ":", .plusG digitA, .lit ")"]
/-- `/\\/[^\\s:]+\\//g` -/
def sigPathPat : List RNode := [.lit "/", .plusG notSpaceColonA, .lit "/"]
/-- `/\\s+/g` -/
def sigWsPat : List RNode := [.plusG wsA]

/-- `createErrorSignature`: lowercase, normalize line/column references and
directory paths, collapse whitespace, trim, take the first line (after the
whitespace collapse the string has no newline left, so `split('\\n')[0]`
is the whole string unless it is empty), truncate to 200 characters. -/
def createErrorSignature (error : String) : String :=
  let normalized :=
    jsTrim (jsReplaceAll false sigWsPat " "
      (jsReplaceAll false sigPathPat "/PATH/"
        (jsReplaceAll false sigParenPat "(LINE:COL)"
          (jsReplaceAll true sigAtLinePat "at line N"
            (jsReplaceAll true sigLinePat "line N"
              (jsReplaceAll false sigLineColPat "LINE:COL" (jsToLower error)))))))
  let firstLine := String.mk (normalized.data.takeWhile (fun c => !(c == '\n')))
  let firstError := if firstLine == "" then normalized else firstLine
  jsSubstring firstError 0 200

/-- `areErrorsSimilar`: signature equality, or a 100-character-prefix
containment in either direction. -/
def areErrorsSimilar (error1 error2 : String) : Bool :=
  let sig1 := createErrorSignature error1
  let sig2 := createErrorSignature error2
  if sig1 == sig2 then true
  else jsIncludes sig1 (jsSubstring sig2 0 100) || jsIncludes sig2 (jsSubstring sig1 0 100)

/-! ## Error Parser (`deploymentErrorParser` module) -/

/-- Error severity. -/
inductive Severity
  | error
  | warning
deriving DecidableEq, Repr

/-- `DeploymentError.category`.  The source's string union is
`'typescript' | 'eslint' | 'build' | 'runtime' | 'syntax' | 'module' | 'jsx'`;
the `syntax` and `module` members are Lean keywords and are embedded as
`syntaxCat` and `moduleCat`. -/
inductive ErrCategory
  | typescript
  | eslint
  | build
  | runtime
  | syntaxCat
  | moduleCat
  | jsx
deriving DecidableEq, Repr

/-- `DeploymentError` of the deployment-error parser. -/
structure DeploymentError where
  file : Option String := none
  line : Option Nat := none
  column : Option Nat := none
  message : String
  severity : Severity
  category : ErrCategory
  code : Option String := none
  context : Option String := none
deriving DecidableEq, Repr

/-- `ParsedDeploymentErrors`. -/
structure ParsedDeploymentErrors where
  errors : List DeploymentError
  hasTypeScriptErrors : Bool
  hasESLintErrors : Bool
  hasBuildErrors : Bool
  hasSyntaxErrors : Bool
  hasModuleErrors : Bool
  summary : String
  rawError : Option String := none
deriving DecidableEq, Repr

/-! Character classes of the parser's regex literals. -/

def notNlA : RAtom := .cls true [.ch '\n']
def fileClsA : RAtom := .cls true [.ch ':', .space]
def upperA : RAtom := .cls false [.range 'A' 'Z']
def crossA : RAtom := .cls false [.ch '×', .ch '✕']
def boxA : RAtom := .cls false [.ch '╭', .ch '├', .ch '│', .ch '╰']
def swcFileA : RAtom := .cls true [.ch ']', .ch ':', .ch '\n']
def quoteA : RAtom := .cls false [.ch '\'', .ch '"']
def notQuoteA : RAtom := .cls true [.ch '\'', .ch '"']
def fileCls7A : RAtom := .cls true [.ch ':', .space, .ch '\n']
def notDquoteA : RAtom := .cls true [.ch '"']
def notParenA : RAtom := .cls true [.ch ')']
def notSpaceNlA : RAtom := .cls true [.space, .ch '\n']

/-- Rule 1: `/\.\/([^:\s]+):(\d+):(\d+)\s*\n\s*Type error:\s*([^\n]+)/g` -/
def tsErrorRegex : List RNode :=
  [.lit "./", .grp 1 [.plusG fileClsA], .lit ":", .grp 2 [.plusG digitA],
   .lit ":", .grp 3 [.plusG digitA], .starG wsA, .lit "\n", .starG wsA,
   .lit "Type error:", .starG wsA, .grp 4 [.plusG notNlA]]

/-- Rule 2: `/\.\/([^:\s]+):(\d+):(\d+)\s*\n\s*(?!Type error:)([A-Z][^\n]+)/g` -/
def genericFileErrorRegex : List RNode :=
  [.lit "./", .grp 1 [.plusG fileClsA], .lit ":", .grp 2 [.plusG digitA],
   .lit ":", .grp 3 [.plusG digitA], .starG wsA, .lit "\n", .starG wsA,
   .nla [.lit "Type error:"], .grp 4 [.atom upperA, .plusG notNlA]]

/-- Rule 3:
`/[×✕]\s*([^\n]+)(?:\s*\n\s*[╭├│╰]─?\[?([^\]:\n]+)?:?(\d+)?:?(\d+)?\]?)?/g` -/
def swcErrorRegex : List RNode :=
  [.atom crossA, .starG wsA, .grp 1 [.plusG notNlA],
   .opt [.starG wsA, .lit "\n", .starG wsA, .atom boxA,
     .optA (.cls false [.ch '─']), .optA (.cls false [.ch '[']),
     .opt [.grp 2 [.plusG swcFileA]], .optA (.cls false [.ch ':']),
     .opt [.grp 3 [.plusG digitA]], .optA (.cls false [.ch ':']),
     .opt [.grp 4 [.plusG digitA]], .optA (.cls false [.ch ']'])]]

/-- Rule 4: `/Module not found:\s*([^\n]+)/g` -/
def moduleNotFoundRegex : List RNode :=
  [.lit "Module not found:", .starG wsA, .grp 1 [.plusG notNlA]]

/-- Rule 4's inner probe:
`/(?:Can't resolve|Cannot find module)\s*['"]([^'"]+)['"]/` -/
def moduleInnerRegex : List RNode :=
  [.alt [[.lit "Can't resolve"], [.lit "Cannot find module"]], .starG wsA,
   .atom quoteA, .grp 1 [.plusG notQuoteA], .atom quoteA]

/-- Rule 5: `/SyntaxError:\s*([^\n]*(?:import|export)[^\n]*)/gi` -/
def importExportErrorRegex : List RNode :=
  [.lit "SyntaxError:", .starG wsA,
   .grp 1 [.starG notNlA, .alt [[.lit "import"], [.lit "export"]], .starG notNlA]]

/-- Rule 6: `/ESLint:\s*Invalid Options:\s*([^\n]+)/g` -/
def eslintConfigRegex : List RNode :=
  [.lit "ESLint:", .starG wsA, .lit "Invalid Options:", .starG wsA,
   .grp 1 [.plusG notNlA]]

/-- Rule 7:
`/\.\/([^:\s\n]+)\s*\n\s*(\d+):(\d+)\s+(Error|Warning|error|warning):\s*([^\n]+)/g` -/
def eslintFileErrorRegex : List RNode :=
  [.lit "./", .grp 1 [.plusG fileCls7A], .starG wsA, .lit "\n", .starG wsA,
   .grp 2 [.plusG digitA], .lit ":", .grp 3 [.plusG digitA], .plusG wsA,
   .grp 4 [.alt [[.lit "Error"], [.lit "Warning"], [.lit "error"], [.lit "warning"]]],
   .lit ":", .starG wsA, .grp 5 [.plusG notNlA]]

/-- Rule 8:
`/ESLint:\s*(\d+):(\d+)\s*-\s*(Error|Warning):\s*(.+?)(?:\s*\(([^)]+)\))?(?:\n|$)/g` -/
def eslintInlineRegex : List RNode :=
  [.lit "ESLint:", .starG wsA, .grp 1 [.plusG digitA], .lit ":",
   .grp 2 [.plusG digitA], .starG wsA, .lit "-", .starG wsA,
   .grp 3 [.alt [[.lit "Error"], [.lit "Warning"]]], .lit ":", .starG wsA,
   .grp 4 [.plusL .dot],
   .opt [.starG wsA, .lit "(", .grp 5 [.plusG notParenA], .lit ")"],
   .alt [[.lit "\n"], [.eos]]]

/-- Rule 9: `/Error:\s*Command\s*"([^"]+)"\s*exited\s*with\s*(\d+)/g` -/
def buildErrorRegex : List RNode :=
  [.lit "Error:", .starG wsA, .lit "Command", .starG wsA, .lit "\"",
   .grp 1 [.plusG notDquoteA], .lit "\"", .starG wsA, .lit "exited",
   .starG wsA, .lit "with", .starG wsA, .grp 2 [.plusG digitA]]

/-- Rule 10: `/Failed to compile\.\s*\n\s*\n\s*([^\n]+)/` (non-global) -/
def failedCompileRegex : List RNode :=
  [.lit "Failed to compile.", .starG wsA, .lit "\n", .starG wsA, .lit "\n",
   .starG wsA, .grp 1 [.plusG notNlA]]

/-- Rule 11: `/Error:\s*([^\n]+)\s+in\s+([^\s\n]+)/g` -/
def nextjsErrorRegex : List RNode :=
  [.lit "Error:", .starG wsA, .grp 1 [.plusG notNlA], .plusG wsA, .lit "in",
   .plusG wsA, .grp 2 [.plusG notSpaceNlA]]

/-- Rule 12: `/(?:React|JSX)\s+(?:error|Error):\s*([^\n]+)/g` -/
def reactErrorRegex : List RNode :=
  [.alt [[.lit "React"], [.lit "JSX"]], .plusG wsA,
   .alt [[.lit "error"], [.lit "Error"]], .lit ":", .starG wsA,
   .grp 1 [.plusG notNlA]]

/-- Anchored `file.replace(/^.*\/src\//, 'src/')` of rule 11: the greedy
`.*` reaches through the last `/src/` occurrence. -/
def replaceSrcPath (file : String) : String :=
  match matchHere false [.starG .dot, .lit "/src/"] file.data with
  | some lc => "src/" ++ String.mk (file.data.drop lc.1)
  | none => file

/-! Each rule's `while ((match = regex.exec(allLogs)) !== null)` loop produces
an ordered candidate list of (dedup key, error) pairs; the shared
`processedMessages` set then filters them in push order (`dedupPush`). -/

/-- Rule 1 — TypeScript type errors. -/
def rule1Cands (allLogs : String) : List (String × DeploymentError) :=
  (execAll false tsErrorRegex allLogs).map fun m =>
    let caps := m.2.2
    let file := (capGet caps 1).getD ""
    let line := (capGet caps 2).getD ""
    let column := (capGet caps 3).getD ""
    let message := (capGet caps 4).getD ""
    (file ++ ":" ++ line ++ ":" ++ message,
     { file := some (jsTrim file), line := some (parseIntD line),
       column := some (parseIntD column),
       message := "TypeScript: " ++ jsTrim message,
       severity := .error, category := .typescript, code := some "TS_TYPE_ERROR" })

/-- Rule 2 — generic file-anchored errors (syntax/JSX/module by keyword). -/
def rule2Cands (allLogs : String) : List (String × DeploymentError) :=
  (execAll false genericFileErrorRegex allLogs).map fun m =>
    let caps := m.2.2
    let file := (capGet caps 1).getD ""
    let line := (capGet caps 2).getD ""
    let column := (capGet caps 3).getD ""
    let message := (capGet caps 4).getD ""
    let category : ErrCategory :=
      if jsIncludes (jsToLower message) "jsx" || jsIncludes message "Expected jsx" then .jsx
      else if jsIncludes message "import" || jsIncludes message "export" then .moduleCat
      else .syntaxCat
    (file ++ ":" ++ line ++ ":" ++ message,
     { file := some (jsTrim file), line := some (parseIntD line),
       column := some (parseIntD column), message := jsTrim message,
       severity := .error, category := category, code := some "SYNTAX_ERROR" })

/-- Rule 3 — SWC/Babel compilation errors (the push is additionally guarded
by the truthiness of `message`). -/
def rule3Cands (allLogs : String) : List (String × DeploymentError) :=
  (execAll false swcErrorRegex allLogs).filterMap fun m =>
    let caps := m.2.2
    let message := (capGet caps 1).getD ""
    if message == "" then none
    else some ("swc:" ++ message,
      { file := (capGet caps 2).map jsTrim, line := (capGet caps 3).map parseIntD,
        column := (capGet caps 4).map parseIntD,
        message := "SWC: " ++ jsTrim message,
        severity := .error, category := .syntaxCat, code := some "SWC_ERROR" })

/-- Rule 4 — module-not-found errors. -/
def rule4Cands (allLogs : String) : List (String × DeploymentError) :=
  (execAll false moduleNotFoundRegex allLogs).map fun m =>
    let message := (capGet m.2.2 1).getD ""
    let moduleName :=
      match jsMatchFirst false moduleInnerRegex message with
      | some mm => (capGet mm.2.2 1).getD message
      | none => message
    ("module:" ++ message,
     { message := "Module not found: " ++ moduleName, severity := .error,
       category := .moduleCat, code := some "MODULE_NOT_FOUND",
       context := some (jsTrim message) })

/-- Rule 5 — import/export syntax errors (case-insensitive). -/
def rule5Cands (allLogs : String) : List (String × DeploymentError) :=
  (execAll true importExportErrorRegex allLogs).map fun m =>
    let message := (capGet m.2.2 1).getD ""
    ("import:" ++ message,
     { message := "Import/Export Error: " ++ jsTrim message, severity := .error,
       category := .moduleCat, code := some "IMPORT_EXPORT_ERROR" })

/-- Rule 6 — ESLint configuration errors. -/
def rule6Cands (allLogs : String) : List (String × DeploymentError) :=
  (execAll false eslintConfigRegex allLogs).map fun m =>
    let message := (capGet m.2.2 1).getD ""
    ("eslint-config:" ++ message,
     { message := "ESLint Config: " ++ jsTrim message, severity := .error,
       category := .eslint, code := some "ESLINT_CONFIG" })

/-- Rule 7 — file-anchored ESLint errors. -/
def rule7Cands (allLogs : String) : List (String × DeploymentError) :=
  (execAll false eslintFileErrorRegex allLogs).map fun m =>
    let caps := m.2.2
    let file := (capGet caps 1).getD ""
    let line := (capGet caps 2).getD ""
    let column := (capGet caps 3).getD ""
    let severity := (capGet caps 4).getD ""
    let message := (capGet caps 5).getD ""
    ("eslint:" ++ file ++ ":" ++ line ++ ":" ++ message,
     { file := some (jsTrim file), line := some (parseIntD line),
       column := some (parseIntD column), message := jsTrim message,
       severity := if jsToLower severity == "error" then .error else .warning,
       category := .eslint, code := some "ESLINT_ERROR" })

/-- Rule 8 — inline ESLint errors. -/
def rule8Cands (allLogs : String) : List (String × DeploymentError) :=
  (execAll false eslintInlineRegex allLogs).map fun m =>
    let caps := m.2.2
    let line := (capGet caps 1).getD ""
    let column := (capGet caps 2).getD ""
    let severity := (capGet caps 3).getD ""
    let message := (capGet caps 4).getD ""
    let rule := capGet caps 5
    ("eslint-inline:" ++ line ++ ":" ++ message,
     { line := some (parseIntD line), column := some (parseIntD column),
       message := match rule with
         | some r => jsTrim message ++ " (" ++ r ++ ")"
         | none => jsTrim message,
       severity := if jsToLower severity == "error" then .error else .warning,
       category := .eslint, code := some (rule.getD "ESLINT_ERROR") })

/-- Rule 9 — build command failures. -/
def rule9Cands (allLogs : String) : List (String × DeploymentError) :=
  (execAll false buildErrorRegex allLogs).map fun m =>
    let command := (capGet m.2.2 1).getD ""
    let exitCode := (capGet m.2.2 2).getD ""
    ("build:" ++ command ++ ":" ++ exitCode,
     { message := "Build failed: " ++ command ++ " exited with code " ++ exitCode,
       severity := .error, category := .build, code := some "BUILD_ERROR" })

/-- Rule 10 — "Failed to compile" with context (single, non-global probe). -/
def rule10Cands (allLogs : String) : List (String × DeploymentError) :=
  if jsIncludes allLogs "Failed to compile" then
    match jsMatchFirst false failedCompileRegex allLogs with
    | some m =>
      let context := jsTrim ((capGet m.2.2 1).getD "")
      [("compile:" ++ context,
        { message := "Compilation failed", severity := .error, category := .build,
          code := some "COMPILE_ERROR", context := some context })]
    | none => []
  else []

/-- Rule 11 — Next.js `Error: ... in file` errors. -/
def rule11Cands (allLogs : String) : List (String × DeploymentError) :=
  (execAll false nextjsErrorRegex allLogs).map fun m =>
    let message := (capGet m.2.2 1).getD ""
    let file := (capGet m.2.2 2).getD ""
    ("nextjs:" ++ file ++ ":" ++ message,
     { file := some (jsTrim (replaceSrcPath file)), message := jsTrim message,
       severity := .error, category := .build, code := some "NEXTJS_ERROR" })

/-- Rule 12 — React/JSX errors. -/
def rule12Cands (allLogs : String) : List (String × DeploymentError) :=
  (execAll false reactErrorRegex allLogs).map fun m =>
    let message := (capGet m.2.2 1).getD ""
    ("react:" ++ message,
     { message := "React/JSX: " ++ jsTrim message, severity := .error,
       category := .jsx, code := some "REACT_ERROR" })

/-- The `processedMessages` set: keep a candidate only when its dedup key has
not been recorded yet, recording it otherwise. -/
def dedupPush : List (String × DeploymentError) → List String → List (String × DeploymentError)
  | [], _ => []
  | ke :: rest, seen =>
    if seen.contains ke.1 then dedupPush rest seen
    else ke :: dedupPush rest (ke.1 :: seen)

/-- All rule candidates in source push order. -/
def allRuleCands (allLogs : String) : List (String × DeploymentError) :=
  rule1Cands allLogs ++ rule2Cands allLogs ++ rule3Cands allLogs ++
  rule4Cands allLogs ++ rule5Cands allLogs ++ rule6Cands allLogs ++
  rule7Cands allLogs ++ rule8Cands allLogs ++ rule9Cands allLogs ++
  rule10Cands allLogs ++ rule11Cands allLogs ++ rule12Cands allLogs

/-- The rule-produced (key, error) pairs that survive the shared dedup set. -/
def parsedKeyedErrors (errorOutput logs : String) : List (String × DeploymentError) :=
  dedupPush (allRuleCands (errorOutput ++ "\n" ++ logs)) []

/-- `generateErrorSummary`. -/
def generateErrorSummary (errors : List DeploymentError) : String :=
  if errors.length == 0 then "No errors found"
  else
    let typeScriptErrors := errors.filter (fun e => e.category == .typescript)
    let eslintErrors := errors.filter (fun e => e.category == .eslint)
    let buildErrors := errors.filter (fun e => e.category == .build)
    let syntaxErrors := errors.filter (fun e => e.category == .syntaxCat)
    let jsxErrors := errors.filter (fun e => e.category == .jsx)
    let moduleErrors := errors.filter (fun e => e.category == .moduleCat)
    let parts : List String :=
      (if typeScriptErrors.length > 0 then
        [toString typeScriptErrors.length ++ " TypeScript error(s)"] else []) ++
      (if syntaxErrors.length > 0 then
        [toString syntaxErrors.length ++ " syntax error(s)"] else []) ++
      (if jsxErrors.length > 0 then
        [toString jsxErrors.length ++ " JSX error(s)"] else []) ++
      (if moduleErrors.length > 0 then
        [toString moduleErrors.length ++ " module error(s)"] else []) ++
      (if eslintErrors.length > 0 then
        [toString eslintErrors.length ++ " ESLint error(s)"] else []) ++
      (if buildErrors.length > 0 then
        [toString buildErrors.length ++ " build error(s)"] else [])
    "Deployment failed with " ++ String.intercalate ", " parts

/-- `parseVercelDeploymentErrors(errorOutput, logs)`: run the rule cascade
over `errorOutput + "\n" + logs` with the shared dedup set; if nothing
matched but the caller signals a failure (`errorOutput.trim()` truthy or
`logs` containing `'error'`), emit one synthetic build error; then compute
the per-category flags and the summary. -/
def parseVercelDeploymentErrors (errorOutput logs : String) : ParsedDeploymentErrors :=
  let allLogs := errorOutput ++ "\n" ++ logs
  let errors0 := (parsedKeyedErrors errorOutput logs).map (fun ke => ke.2)
  let errors :=
    if errors0.length == 0 && (!(jsTrim errorOutput == "") || jsIncludes logs "error") then
      let genericErrorLines := (allLogs.splitOn "\n").filter (fun line =>
        jsIncludes (jsToLower line) "error" || jsIncludes line "×" ||
        jsIncludes line "✕" || jsIncludes line "failed" || jsIncludes line "Failed")
      if genericErrorLines.length > 0 then
        errors0 ++
          [{ message := "Build error detected", severity := .error,
             category := .build, code := some "UNKNOWN_ERROR",
             context := some (String.intercalate "\n" (genericErrorLines.take 5)) }]
      else
        errors0 ++
          [{ message := "Unknown build error", severity := .error,
             category := .build, code := some "UNKNOWN_ERROR",
             context := some (jsSubstring errorOutput 0 1000) }]
    else errors0
  { errors := errors,
    hasTypeScriptErrors := errors.any (fun e => e.category == .typescript),
    hasESLintErrors := errors.any (fun e => e.category == .eslint),
    hasBuildErrors := errors.any (fun e => e.category == .build),
    hasSyntaxErrors := errors.any (fun e => e.category == .syntaxCat || e.category == .jsx),
    hasModuleErrors := errors.any (fun e => e.category == .moduleCat),
    summary := generateErrorSummary errors,
    rawError := some (jsSubstring errorOutput 0 2000) }

/-- `replace(/^\.\//, '')`: the anchored regex removes one leading `./`. -/
def dropDotSlash (l : List Char) : List Char :=
  if charsHasPre ['.', '/'] l then l.drop 2 else l

/-- `normalizePath`: remove one leading `./`, turn backslashes into `/`,
trim. -/
def normalizePath (p : String) : String :=
  jsTrim (String.mk ((dropDotSlash p.data).map (fun c => if c = '\\' then '/' else c)))

/-- `getFilesToFix(parsed, allFiles)`. -/
def getFilesToFix (parsed : ParsedDeploymentErrors) (allFiles : List SrcFile) :
    List SrcFile :=
  let base := (parsed.errors.filterMap (fun e => e.file)).map normalizePath
  let withEslint :=
    if parsed.hasESLintErrors then
      base ++ ["eslint.config.mjs", ".eslintrc.json", ".eslintrc.js"]
    else base
  let withPkg := if parsed.hasModuleErrors then withEslint ++ ["package.json"] else withEslint
  let filesToFix := dedupKeys withPkg
  let matchedFiles := allFiles.filter (fun f =>
    let normalizedFilename := normalizePath f.filename
    filesToFix.any (fun errorFile =>
      normalizedFilename == errorFile || normalizedFilename.endsWith errorFile ||
        errorFile.endsWith normalizedFilename))
  if matchedFiles.length == 0 && parsed.errors.length > 0 then
    (allFiles.filter (fun f =>
      let name := jsToLower f.filename
      (jsIncludes name "src/" || jsIncludes name "app/") &&
        (name.endsWith ".tsx" || name.endsWith ".ts" ||
          name.endsWith ".jsx" || name.endsWith ".js"))).take 5
  else matchedFiles

/-! ## C6, C7, C8 -/

theorem dedupPush_nodup (l : List (String × DeploymentError)) :
    ∀ seen, ((dedupPush l seen).map Prod.fst).Nodup ∧
      ∀ k ∈ (dedupPush l seen).map Prod.fst, k ∉ seen := by
  induction l with
  | nil => intro seen; simp [dedupPush]
  | cons ke rest ih =>
    intro seen
    rw [dedupPush]
    split
    · exact ⟨(ih seen).1, (ih seen).2⟩
    · rename_i hnot
      have h1 := (ih (ke.1 :: seen)).1
      have h2 := (ih (ke.1 :: seen)).2
      refine ⟨?_, ?_⟩
      · simp only [List.map_cons, List.nodup_cons]
        refine ⟨fun hmem => ?_, h1⟩
        exact (h2 ke.1 hmem) (List.mem_cons_self _ _)
      · intro k hk
        simp only [List.map_cons, List.mem_cons] at hk
        rcases hk with hk | hk
        · subst hk
          simpa using hnot
        · intro hseen
          exact (h2 k hk) (List.mem_cons_of_mem _ hseen)

/-- **C6 (amended).** The parser's dedup works per signature key, not per
(file, line, message) tuple: every rule run is filtered through the shared
`processedMessages` set, so the rule-produced errors carry pairwise-distinct
dedup keys — a duplicate of an already-recorded key is recorded once.  Two
different rules, however, key their signatures differently and can both
record an error with the same (file, line, message) tuple. -/
theorem C6_dedup_keys_nodup (errorOutput logs : String) :
    ((parsedKeyedErrors errorOutput logs).map Prod.fst).Nodup := by
  unfold parsedKeyedErrors
  exact (dedupPush_nodup _ []).1

/-- **C6 (counterexample).** The claim says a log in which the tuple
(file, line, message) occurs N times yields exactly 1 error for that tuple.
In this log the tuple `(a.ts, 5, "Foo bar")` is reported twice — once in the
compiler shape `./a.ts:5:1\nFoo bar` and once in the ESLint shape
`./a.ts\n5:1 Error: Foo bar` — and the parser returns 2 errors carrying that
same tuple (one from the generic file-error rule, one from the ESLint file
rule), because each rule uses its own key prefix in the dedup set. -/
theorem C6_counterexample :
    ((parseVercelDeploymentErrors ""
        "./a.ts:5:1\nFoo bar\n./a.ts\n5:1 Error: Foo bar\n").errors.filter
      (fun e => e.file == some "a.ts" && e.line == some (5 : Nat) &&
        e.message == "Foo bar")).length = 2 := rfl

theorem mem_trimStartChars {c : Char} : ∀ l, c ∈ trimStartChars l → c ∈ l := by
  intro l
  induction l with
  | nil => simp [trimStartChars]
  | cons d ds ih =>
    rw [trimStartChars]
    split
    · intro h; exact List.mem_cons_of_mem _ (ih h)
    · exact fun h => h

theorem mem_jsTrim {c : Char} (s : String) (h : c ∈ (jsTrim s).data) : c ∈ s.data := by
  unfold jsTrim at h
  have h1 := mem_trimStartChars _ h
  rw [List.mem_reverse] at h1
  have h2 := mem_trimStartChars _ h1
  rw [List.mem_reverse] at h2
  exact h2

/-- **C7 (amended).** `parseVercelDeploymentErrors` does not normalize the
`file` field of its errors (a path can retain backslashes or a leading `./`);
normalization happens only when `getFilesToFix` compares paths through
`normalizePath`, which strips one leading `./` prefix and replaces every
backslash with `/` — so a normalized path contains no backslash. -/
theorem C7_normalizePath_normalizes (s : String) :
    normalizePath ("./" ++ s) =
      jsTrim (String.mk (s.data.map (fun c => if c = '\\' then '/' else c))) ∧
    ∀ c ∈ (normalizePath s).data, c ≠ '\\' := by
  have hdata : ("./" ++ s).data = '.' :: '/' :: s.data := rfl
  constructor
  · unfold normalizePath
    rw [hdata]
    rw [show dropDotSlash ('.' :: '/' :: s.data) = s.data from by
      rw [dropDotSlash]; simp [charsHasPre]]
  · intro c hc
    unfold normalizePath at hc
    have h1 := mem_jsTrim _ hc
    simp only [String.mk] at h1
    rcases List.mem_map.mp h1 with ⟨d, hd, hmap⟩
    intro hback
    subst hback
    by_cases hdb : d = '\\' <;> simp [hdb] at hmap

/-- **C7 (counterexample).** The claim says every file path in a returned
error is normalized (no leading `./`, `/` separators).  On the log
`Error: oops in src\a.ts` the Next.js-error rule stores the captured path
verbatim: the single returned error has `file = some "src\a.ts"`, which
contains a backslash. -/
theorem C7_counterexample :
    (parseVercelDeploymentErrors "" "Error: oops in src\\a.ts").errors =
      [{ file := some "src\\a.ts", message := "oops", severity := .error,
         category := .build, code := some "NEXTJS_ERROR" }] ∧
    '\\' ∈ "src\\a.ts".data := ⟨rfl, by decide⟩

theorem C7_normalizePath_normalizes_witness :
    (normalizePath ("./" ++ "a\\b") =
      jsTrim (String.mk ("a\\b".data.map (fun c => if c = '\\' then '/' else c))) ∧
    ∀ c ∈ (normalizePath "a\\b").data, c ≠ '\\') ∧
    normalizePath ("./" ++ "a\\b") = "a/b" :=
  ⟨C7_normalizePath_normalizes "a\\b", by decide⟩

/-- **C8 (amended).** Whenever `errorOutput` is non-empty *after trimming
whitespace*, or `logs` contains the lowercase substring `"error"`, the parser
returns at least one error: if no rule matched, the fallback emits one
synthetic build-category error, so the errors list is never empty. -/
theorem C8_fallback_never_empty (errorOutput logs : String)
    (h : jsTrim errorOutput ≠ "" ∨ jsIncludes logs "error" = true) :
    (parseVercelDeploymentErrors errorOutput logs).errors ≠ [] := by
  have hcond : (!(jsTrim errorOutput == "") || jsIncludes logs "error") = true := by
    rcases h with h | h
    · simp [h]
    · simp [h]
  unfold parseVercelDeploymentErrors
  dsimp only
  rw [hcond]
  simp only [Bool.and_true]
  split
  · split <;> simp
  · rename_i h0
    intro hnil
    rw [hnil] at h0
    simp at h0

/-- **C8 (counterexample).** The claim conditions on `errorOutput` being
non-empty, but the code tests `errorOutput.trim()`: with the non-empty
whitespace-only `errorOutput = " "` and empty logs, the parser returns zero
errors. -/
theorem C8_counterexample :
    (parseVercelDeploymentErrors " " "").errors = [] ∧ (" " : String) ≠ "" :=
  ⟨rfl, by decide⟩

theorem C8_fallback_never_empty_witness :
    (parseVercelDeploymentErrors "boom" "").errors ≠ [] :=
  C8_fallback_never_empty "boom" "" (Or.inl (by decide))

/-! ## Job Controller (`executeGenerationJob` and its two handlers)

The persistence layer is modelled as state: `DbState.job` is the job row
(`status`, `result`, `error` columns) and `events` is an append-only log of
the other persistence/notification calls.  Per spec §6 persistence calls are
total.  A JS exception is `Except.error` carrying `error.message`.  Whether
`getGenerationJobById` finds the row is environment data (`jobFound`): a row
cannot appear or disappear during one execution. -/

def CUSTOM_DOMAIN_BASE : String := "minidev.fun"

/-- `MAX_CONSECUTIVE_SAME_ERROR_RETRIES`. -/
def MAX_CONSECUTIVE_SAME_ERROR_RETRIES : Nat := 3

inductive JobStatus
  | pending
  | processing
  | completed
  | failed
deriving DecidableEq, Repr

def statusName : JobStatus → String
  | .pending => "pending"
  | .processing => "processing"
  | .completed => "completed"
  | .failed => "failed"

abbrev Addrs := List (String × String)

/-- The union of the fields of every `result`/`errorDetails` object the
worker stores through `updateGenerationJobStatus`; a JS field that is absent
from a given payload is `none`.  `errorText` embeds the JS `error` field;
`diffsCount` abstracts the `diffs` array to its length;
`contractAddressesPresent` abstracts the contract-address record to its
presence. -/
structure Payload where
  status : Option String := none
  stuckOnError : Option Bool := none
  consecutiveRetries : Option Nat := none
  attempts : Option Nat := none
  attempt : Option Nat := none
  maxAttempts : Option Nat := none
  consecutiveSameErrorCount : Option Nat := none
  errorText : Option String := none
  hasLogs : Option Bool := none
  fixesApplied : Option Bool := none
  errorType : Option String := none
  deploymentError : Option String := none
  deploymentLogs : Option String := none
  projectId : Option String := none
  generatedFiles : Option (List String) := none
  url : Option String := none
  port : Option Nat := none
  success : Option Bool := none
  deploymentFailed : Option Bool := none
  files : Option (List String) := none
  diffsCount : Option Nat := none
  changedFiles : Option (List String) := none
  previewUrl : Option String := none
  vercelUrl : Option String := none
  projectName : Option String := none
  totalFiles : Option Nat := none
  deploymentAttempts : Option Nat := none
  contractAddressesPresent : Option Bool := none
  appType : Option String := none
deriving DecidableEq, Repr

/-- The job row: `status`, `result`, `error` columns. -/
structure DbJob where
  status : JobStatus
  result : Option Payload := none
  error : Option String := none
deriving DecidableEq, Repr

/-- Persistence state: the job row plus an event log of the remaining
persistence and notification calls (project rows, file saves, notifies). -/
structure DbState where
  job : DbJob
  events : List String := []
deriving DecidableEq, Repr

/-- The worker's effect monad: state passing plus JS exceptions. -/
def JobM (α : Type) : Type := DbState → Except String α × DbState

def pureJ {α : Type} (a : α) : JobM α := fun s => (.ok a, s)

def bindJ {α β : Type} (m : JobM α) (k : α → JobM β) : JobM β := fun s =>
  match m s with
  | (.ok a, s') => k a s'
  | (.error e, s') => (.error e, s')

instance : Monad JobM where
  pure := pureJ
  bind := bindJ

/-- `throw new Error(msg)`. -/
def throwJ {α : Type} (msg : String) : JobM α := fun s => (.error msg, s)

/-- `try { m } catch (e) { h e }`. -/
def tryCatchJ {α : Type} (m : JobM α) (h : String → JobM α) : JobM α := fun s =>
  match m s with
  | (.ok a, s') => (.ok a, s')
  | (.error e, s') => h e s'

/-- `try { await m } catch { log only }`. -/
def tryIgnore {α : Type} (m : JobM α) : JobM Unit :=
  tryCatchJ (bindJ m (fun _ => pureJ ())) (fun _ => pureJ ())

/-- Lift the outcome of one awaited external call. -/
def liftE {α : Type} (e : Except String α) : JobM α := fun s => (e, s)

/-- `updateGenerationJobStatus(jobId, status, result?, error?)`: sets the
`status` column and the `result`/`error` columns when provided (timestamp
columns are not modelled). -/
def updateJobStatus (st : JobStatus) (result : Option Payload)
    (error : Option String) : JobM Unit := fun s =>
  (.ok (), { s with job :=
    { status := st,
      result := match result with | some p => some p | none => s.job.result,
      error := match error with | some e => some e | none => s.job.error } })

/-- `getGenerationJobById` (the row's contents; presence is `jobFound`). -/
def getJob : JobM DbJob := fun s => (.ok s.job, s)

/-- A persistence or notification call outside the job row. -/
def emit (tag : String) : JobM Unit := fun s =>
  (.ok (), { s with events := s.events ++ [tag] })

/-- JS truthiness of an optional string (`undefined` and `""` are falsy). -/
def isTruthy : Option String → Bool
  | some s => !(s == "")
  | none => false

/-- JS `a || b` on optional strings. -/
def jsOrStr (a b : Option String) : Option String :=
  if isTruthy a then a else b

/-- JS `a || b` on an optional number (`undefined` and `0` are falsy). -/
def jsOrNat (a : Option Nat) (b : Nat) : Nat :=
  match a with
  | some 0 => b
  | some n => n
  | none => b

/-- The resolved value of `createPreview` / `redeployToVercel`. -/
structure PreviewData where
  status : String := ""
  deploymentError : Option String := none
  deploymentLogs : Option String := none
  vercelUrl : Option String := none
  previewUrl : Option String := none
  port : Option Nat := none
  contractAddresses : Option Addrs := none
deriving DecidableEq, Repr

/-- `GenerationJobContext` (the fields the worker reads). -/
structure JobContext where
  prompt : String := ""
  isFollowUp : Bool := false
  existingProjectId : Option String := none
  useDiffBased : Bool := true
  conversationHistoryLen : Nat := 0
deriving DecidableEq, Repr

/-- Result of `executeEnhancedPipeline` as read by the initial handler. -/
structure PipelineResult where
  success : Bool
  error : Option String := none
  files : List SrcFile
  hasIntentSpec : Bool := true
  isWeb3 : Bool := false
deriving DecidableEq, Repr

/-- Result of the follow-up pipeline as read by the follow-up handler. -/
structure FollowPipeResult where
  files : List SrcFile
  hasDiffs : Bool := false
  diffsCount : Nat := 0
deriving DecidableEq, Repr

/-- Oracle environment of `executeInitialGenerationJob`.  Each `Except` field
is the outcome of one awaited external call (indexed by deployment attempt
where the call sits in the retry loop); pure helper modules that are not
part of the claims (`contractAddressInjector`, `metadataInjector`,
`generateProjectName` — the latter reads the clock) are abstracted as
function/string parameters. -/
structure InitEnv where
  accessToken : Option String := some "token"
  userFound : Bool := true
  isProd : Bool := false
  boilerplate : Except String Unit := .ok ()
  boilerplateFiles : List SrcFile := []
  pipeline : Except String PipelineResult
  deployContracts : List SrcFile → Except String Addrs := fun _ => .ok []
  injectAddresses : List SrcFile → Addrs → List SrcFile := fun fs _ => fs
  buildValidation : Except String BuildValidationResult
  createPreview : Nat → Except String PreviewData
  fixDeploy : Nat → List SrcFile → Except String (List SrcFile) := fun _ fs => .ok fs
  getPreviewUrl : Option String := none
  projectExisting : Bool := false
  diskFiles : List SrcFile := []
  injectMetadata : List SrcFile → List SrcFile := fun fs => fs
  redeploy : Except String PreviewData := .ok {}
  notifyFailed : Except String Unit := .ok ()
  notifyComplete : Except String Unit := .ok ()
  projectName : String := "Project"
  freshProjectId : String := "fresh-id"

/-- State carried by the initial-generation deployment retry loop
(`previewData` keeps the last resolved `createPreview` value, as the JS
variable does). -/
structure InitDeployState where
  generatedFiles : List SrcFile
  previewData : Option PreviewData := none
  projectUrl : String
  errorHistory : List String := []
  consecutiveSameErrorCount : Nat := 0
  stuckOnError : Bool := false
  deploymentAttempt : Nat := 0
deriving DecidableEq, Repr

/-- The stuck-failure payload of the initial path. -/
def initStuckPayload (projectId : String) (count attempt : Nat) (derr : String)
    (logs : Option String) (files : List SrcFile) : Payload :=
  { status := some "stuck_on_error", stuckOnError := some true,
    consecutiveRetries := some count, attempts := some attempt,
    deploymentError := some derr,
    deploymentLogs := logs.map (fun l => jsSubstring l 0 1000),
    projectId := some projectId,
    generatedFiles := some (files.map (fun f => f.filename)),
    url := some ("https://" ++ projectId ++ "." ++ CUSTOM_DOMAIN_BASE),
    port := some 3000 }

/-- The ordinary-exhaustion failure payload of the initial path. -/
def initExhaustPayload (projectId : String) (stuck : Bool) (count attempt : Nat)
    (derr : String) (logs : Option String) (files : List SrcFile) : Payload :=
  { status := some "deployment_failed_all_attempts", stuckOnError := some stuck,
    consecutiveRetries := some count, attempts := some attempt,
    deploymentError := some derr,
    deploymentLogs := logs.map (fun l => jsSubstring l 0 1000),
    projectId := some projectId,
    generatedFiles := some (files.map (fun f => f.filename)),
    url := some ("https://" ++ projectId ++ "." ++ CUSTOM_DOMAIN_BASE),
    port := some 3000 }

/-- The `while (deploymentAttempt < maxDeploymentRetries)` retry loop of
`executeInitialGenerationJob`.  The guard is the source's; the fuel only
witnesses termination (each iteration increments `deploymentAttempt` by one,
so `fuel = maxDeploymentRetries` at entry can never run out first).
An exception thrown by `fixDeploymentErrors` lands in the same catch clause
as one from `createPreview`; the catch's retry test is reproduced at both
throw sites. -/
def initialDeployLoop (env : InitEnv) (projectId : String)
    (maxDeploymentRetries : Nat) : Nat → InitDeployState → JobM InitDeployState
  | 0, st => pureJ st
  | fuel + 1, st =>
    if st.deploymentAttempt < maxDeploymentRetries then
      let attempt := st.deploymentAttempt + 1
      match env.createPreview attempt with
      | .error msg =>
        -- catch (previewError)
        let isTimeoutError := jsIncludes msg "timeout" || jsIncludes msg "ETIMEDOUT" ||
          jsIncludes msg "ECONNRESET"
        if isTimeoutError && decide (attempt < maxDeploymentRetries) then do
          updateJobStatus .processing (some
            { status := some "deployment_timeout", attempt := some attempt,
              maxAttempts := some maxDeploymentRetries, errorText := some msg }) none
          initialDeployLoop env projectId maxDeploymentRetries fuel
            { st with deploymentAttempt := attempt }
        else if maxDeploymentRetries ≤ attempt then do
          updateJobStatus .failed (some
            { status := some "deployment_failed_exception", attempts := some attempt,
              errorType := some (if isTimeoutError then "timeout" else "other"),
              deploymentError := some msg, projectId := some projectId,
              generatedFiles := some (st.generatedFiles.map (fun f => f.filename)),
              url := some ("https://" ++ projectId ++ "." ++ CUSTOM_DOMAIN_BASE),
              port := some 3000 }) (some msg)
          throwJ ("Deployment failed after " ++ toString attempt ++ " attempts: " ++ msg)
        else
          initialDeployLoop env projectId maxDeploymentRetries fuel
            { st with deploymentAttempt := attempt }
      | .ok previewData =>
        if previewData.status == "deployment_failed" && isTruthy previewData.deploymentError then
          let derr := previewData.deploymentError.getD ""
          let count :=
            match st.errorHistory.getLast? with
            | some lastError =>
              if areErrorsSimilar derr lastError then st.consecutiveSameErrorCount + 1 else 1
            | none => 1
          let errorHistory := st.errorHistory ++ [derr]
          if MAX_CONSECUTIVE_SAME_ERROR_RETRIES ≤ count then do
            updateJobStatus .failed
              (some (initStuckPayload projectId count attempt derr
                previewData.deploymentLogs st.generatedFiles))
              (some ("Stuck on same error after " ++ toString count ++
                " consecutive retries. Please try building the app again with a fresh start."))
            pureJ { st with
              previewData := none, deploymentAttempt := attempt,
              errorHistory := errorHistory, consecutiveSameErrorCount := count,
              stuckOnError := true }
          else do
            updateJobStatus .processing (some
              { status := some "deployment_retry", attempt := some attempt,
                maxAttempts := some maxDeploymentRetries,
                consecutiveSameErrorCount := some count,
                errorText := some (jsSubstring derr 0 500),
                hasLogs := some (isTruthy previewData.deploymentLogs) }) none
            if attempt < maxDeploymentRetries then
              match env.fixDeploy attempt st.generatedFiles with
              | .ok fixedFiles => do
                emit "writeFilesToDir"
                emit "saveFilesToGenerated"
                updateJobStatus .processing (some
                  { status := some "deployment_retrying", attempt := some (attempt + 1),
                    maxAttempts := some maxDeploymentRetries,
                    consecutiveSameErrorCount := some count,
                    fixesApplied := some true }) none
                initialDeployLoop env projectId maxDeploymentRetries fuel
                  { st with
                    generatedFiles := fixedFiles, previewData := some previewData,
                    deploymentAttempt := attempt, errorHistory := errorHistory,
                    consecutiveSameErrorCount := count }
              | .error msg =>
                -- the exception reaches catch (previewError)
                let isTimeoutError := jsIncludes msg "timeout" || jsIncludes msg "ETIMEDOUT" ||
                  jsIncludes msg "ECONNRESET"
                if isTimeoutError && decide (attempt < maxDeploymentRetries) then do
                  updateJobStatus .processing (some
                    { status := some "deployment_timeout", attempt := some attempt,
                      maxAttempts := some maxDeploymentRetries,
                      errorText := some msg }) none
                  initialDeployLoop env projectId maxDeploymentRetries fuel
                    { st with
                      previewData := some previewData, deploymentAttempt := attempt,
                      errorHistory := errorHistory, consecutiveSameErrorCount := count }
                else if maxDeploymentRetries ≤ attempt then do
                  updateJobStatus .failed (some
                    { status := some "deployment_failed_exception", attempts := some attempt,
                      errorType := some (if isTimeoutError then "timeout" else "other"),
                      deploymentError := some msg, projectId := some projectId,
                      generatedFiles := some (st.generatedFiles.map (fun f => f.filename)),
                      url := some ("https://" ++ projectId ++ "." ++ CUSTOM_DOMAIN_BASE),
                      port := some 3000 }) (some msg)
                  throwJ ("Deployment failed after " ++ toString attempt ++ " attempts: " ++ msg)
                else
                  initialDeployLoop env projectId maxDeploymentRetries fuel
                    { st with
                      previewData := some previewData, deploymentAttempt := attempt,
                      errorHistory := errorHistory, consecutiveSameErrorCount := count }
            else do
              updateJobStatus .failed
                (some (initExhaustPayload projectId st.stuckOnError count attempt derr
                  previewData.deploymentLogs st.generatedFiles))
                (some derr)
              pureJ { st with
                previewData := none, deploymentAttempt := attempt,
                errorHistory := errorHistory, consecutiveSameErrorCount := count }
        else
          -- deployment succeeded
          pureJ { st with
            previewData := some previewData,
            projectUrl := (jsOrStr previewData.vercelUrl (jsOrStr previewData.previewUrl
              (jsOrStr env.getPreviewUrl
                (some ("https://" ++ projectId ++ "." ++ CUSTOM_DOMAIN_BASE))))).getD "",
            deploymentAttempt := attempt }
    else pureJ st

/-- Oracle environment of `executeFollowUpJob`. -/
structure FollowEnv where
  accessToken : Option String := some "token"
  userFound : Bool := true
  loadFiles : Except String (List SrcFile)
  pipeline : Except String FollowPipeResult
  buildValidation : Except String BuildValidationResult
  redeploy : Nat → Except String PreviewData
  fixDeploy : Nat → List SrcFile → Except String (List SrcFile) := fun _ fs => .ok fs
  getPreviewUrl : Option String := none
  notifyFailed : Except String Unit := .ok ()
  notifyEditComplete : Except String Unit := .ok ()

/-- State carried by the follow-up deployment retry loop. -/
structure FollowDeployState where
  deployableFiles : List SrcFile
  deploymentAttempt : Nat := 0
  errorHistory : List String := []
  consecutiveSameErrorCount : Nat := 0
  stuckOnError : Bool := false
  deploymentFailed : Bool := false
  deploymentError : String := ""
  finalVercelUrl : Option String := none
deriving DecidableEq, Repr

/-- The `while (deploymentAttempt < maxDeploymentRetries)` retry loop of
`executeFollowUpJob` (PHASE 3).  Unlike the initial path, a stuck detection
or exhaustion here records no job payload inside the loop: it only sets the
local `deploymentFailed`/`deploymentError`/`stuckOnError` variables and
breaks; the `catch` clause treats `fetch failed` as retryable as well. -/
def followUpDeployLoop (env : FollowEnv) (projectId : String)
    (maxDeploymentRetries : Nat) : Nat → FollowDeployState → JobM FollowDeployState
  | 0, st => pureJ st
  | fuel + 1, st =>
    if st.deploymentAttempt < maxDeploymentRetries then
      let attempt := st.deploymentAttempt + 1
      match env.redeploy attempt with
      | .ok previewData =>
        if isTruthy previewData.deploymentError then
          let derr := previewData.deploymentError.getD ""
          let count :=
            match st.errorHistory.getLast? with
            | some lastError =>
              if areErrorsSimilar derr lastError then st.consecutiveSameErrorCount + 1 else 1
            | none => 1
          let errorHistory := st.errorHistory ++ [derr]
          if MAX_CONSECUTIVE_SAME_ERROR_RETRIES ≤ count then
            pureJ { st with
              deploymentAttempt := attempt, errorHistory := errorHistory,
              consecutiveSameErrorCount := count, stuckOnError := true,
              deploymentFailed := true,
              deploymentError := "Stuck on same error after " ++ toString count ++
                " retries: " ++ derr }
          else do
            updateJobStatus .processing (some
              { status := some "deployment_retry", attempt := some attempt,
                maxAttempts := some maxDeploymentRetries,
                consecutiveSameErrorCount := some count,
                errorText := some (jsSubstring derr 0 500) }) none
            if attempt < maxDeploymentRetries then
              match env.fixDeploy attempt st.deployableFiles with
              | .ok fixedFiles => do
                emit "writeFilesToDir"
                emit "saveFilesToGenerated"
                emit "saveProjectFiles"
                updateJobStatus .processing (some
                  { status := some "deployment_retrying", attempt := some (attempt + 1),
                    maxAttempts := some maxDeploymentRetries,
                    fixesApplied := some true }) none
                followUpDeployLoop env projectId maxDeploymentRetries fuel
                  { st with
                    deployableFiles := fixedFiles, deploymentAttempt := attempt,
                    errorHistory := errorHistory, consecutiveSameErrorCount := count }
              | .error msg =>
                -- the exception reaches catch (deployError)
                let isRetryableError := jsIncludes msg "timeout" ||
                  jsIncludes msg "ETIMEDOUT" || jsIncludes msg "ECONNRESET" ||
                  jsIncludes msg "fetch failed"
                if isRetryableError && decide (attempt < maxDeploymentRetries) then do
                  updateJobStatus .processing (some
                    { status := some "deployment_timeout", attempt := some attempt,
                      maxAttempts := some maxDeploymentRetries,
                      errorText := some msg }) none
                  followUpDeployLoop env projectId maxDeploymentRetries fuel
                    { st with
                      deploymentAttempt := attempt, errorHistory := errorHistory,
                      consecutiveSameErrorCount := count }
                else
                  pureJ { st with
                    deploymentAttempt := attempt, errorHistory := errorHistory,
                    consecutiveSameErrorCount := count, deploymentFailed := true,
                    deploymentError := msg }
            else
              pureJ { st with
                deploymentAttempt := attempt, errorHistory := errorHistory,
                consecutiveSameErrorCount := count, deploymentFailed := true,
                deploymentError := derr }
        else do
          -- deployment succeeded
          if isTruthy previewData.vercelUrl then do
            emit "getProjectById"
            emit "updateProject"
          pureJ { st with
            deploymentAttempt := attempt, finalVercelUrl := previewData.vercelUrl }
      | .error msg =>
        let isRetryableError := jsIncludes msg "timeout" || jsIncludes msg "ETIMEDOUT" ||
          jsIncludes msg "ECONNRESET" || jsIncludes msg "fetch failed"
        if isRetryableError && decide (attempt < maxDeploymentRetries) then do
          updateJobStatus .processing (some
            { status := some "deployment_timeout", attempt := some attempt,
              maxAttempts := some maxDeploymentRetries, errorText := some msg }) none
          followUpDeployLoop env projectId maxDeploymentRetries fuel
            { st with deploymentAttempt := attempt }
        else
          pureJ { st with
            deploymentAttempt := attempt, deploymentFailed := true,
            deploymentError := msg }
    else pureJ st

/-- `/BUILD THIS MINIAPP:\s*(.+?)(?:\n|$)/` of the initial handler. -/
def buildThisRegex : List RNode :=
  [.lit "BUILD THIS MINIAPP:", .starG wsA, .grp 1 [.plusL .dot],
   .alt [[.lit "\n"], [.eos]]]

/-- The `userRequest` extraction at the start of the initial handler. -/
def extractUserRequest (prompt : String) : String :=
  if jsIncludes prompt "BUILD THIS MINIAPP:" then
    match jsMatchFirst false buildThisRegex prompt with
    | some m => jsTrim ((capGet m.2.2 1).getD "")
    | none => prompt
  else
    match (prompt.splitOn "\n").find?
        (fun line => charsHasPre "User wants to create:".data line.data) with
    | some line => line
    | none => prompt

/-- `executeInitialGenerationJob(jobId, job, context)`.  File-system writes
and the persistence calls outside the job row appear as events; the LLM
pipeline, the contract deployment, the local build-validation run and every
deployment attempt are environment outcomes. -/
def executeInitialGenerationJob (env : InitEnv) (jobId : String)
    (context : JobContext) (userId : String) (appType : String) : JobM Unit := do
  if !(isTruthy env.accessToken) then throwJ "Missing preview auth token"
  if !env.userFound then throwJ ("User " ++ userId ++ " not found")
  let userRequest := extractUserRequest context.prompt
  let projectId := (jsOrStr context.existingProjectId (some env.freshProjectId)).getD ""
  match env.boilerplate with
  | .error e =>
    throwJ ((if env.isProd then "Failed to fetch boilerplate: "
      else "Failed to copy boilerplate: ") ++ e)
  | .ok _ => do
    emit "copyBoilerplate"
    let enhancedResult ← liftE env.pipeline
    if !enhancedResult.success then
      throwJ ((jsOrStr enhancedResult.error (some "Enhanced pipeline failed")).getD "")
    let generatedFiles := enhancedResult.files
    let generatedFiles :=
      if enhancedResult.hasIntentSpec && !enhancedResult.isWeb3 then
        generatedFiles.filter (fun f => !(charsHasPre "contracts/".data f.filename.data))
      else generatedFiles
    emit "writeFilesToDir"
    emit "saveFilesToGenerated"
    let contractState ←
      if enhancedResult.isWeb3 then
        tryCatchJ (do
          let contractFiles := generatedFiles.filter (fun f =>
            !(f.filename == "hardhat.config.js" || f.filename == "hardhat.config.ts" ||
              f.filename == "contracts/hardhat.config.js" ||
              f.filename == "contracts/hardhat.config.ts"))
          let addrs ← liftE (env.deployContracts contractFiles)
          if addrs.length > 0 then do
            let injected := env.injectAddresses generatedFiles addrs
            emit "writeFilesToDir"
            emit "saveFilesToGenerated"
            pureJ (some addrs, injected)
          else
            pureJ (some addrs, generatedFiles))
          (fun _ => pureJ (none, generatedFiles))
      else pureJ (none, generatedFiles)
    let contractAddresses := contractState.1
    let generatedFiles := contractState.2
    let generatedFiles ← tryCatchJ (do
        let bv ← liftE env.buildValidation
        emit "writeFilesToDir"
        emit "saveFilesToGenerated"
        pureJ bv.files)
      (fun _ => pureJ generatedFiles)
    let st0 : InitDeployState :=
      { generatedFiles := generatedFiles,
        projectUrl := "https://" ++ projectId ++ "." ++ CUSTOM_DOMAIN_BASE }
    let st ← initialDeployLoop env projectId 4 4 st0
    let deploymentFailed :=
      match st.previewData with
      | none => true
      | some pd => pd.status == "deployment_failed"
    let deploymentError :=
      (jsOrStr (st.previewData.bind (fun pd => pd.deploymentError))
        (some "Deployment failed")).getD ""
    emit "getProjectById"
    if !env.projectExisting then do
      emit "createProject"
      if context.conversationHistoryLen > 0 then emit "saveChatMessages"
    let allFilesFromDisk := env.diskFiles
    let filesToSave :=
      if enhancedResult.hasIntentSpec && !enhancedResult.isWeb3 then
        allFilesFromDisk.filter (fun f => !(charsHasPre "contracts/".data f.filename.data))
      else allFilesFromDisk
    let filesWithMetadata := env.injectMetadata filesToSave
    let safeFiles := filesWithMetadata.filter (fun f => !(jsIncludes f.content "\x00"))
    emit "saveProjectFiles"
    tryIgnore (liftE env.redeploy)
    if deploymentFailed then do
      tryIgnore (emit "createDeployment_failed")
      tryIgnore (emit "updateProject")
      tryIgnore (liftE env.notifyFailed)
      throwJ ("Deployment failed: " ++ deploymentError)
    else do
      tryIgnore (do
        emit "createDeployment_success"
        emit "updateProject")
      let result : Payload :=
        { projectId := some projectId, url := some st.projectUrl,
          port := some (jsOrNat (st.previewData.bind (fun pd => pd.port)) 3000),
          success := some true,
          generatedFiles := some (st.generatedFiles.map (fun f => f.filename)),
          totalFiles := some st.generatedFiles.length,
          previewUrl := some ((jsOrStr (st.previewData.bind (fun pd => pd.previewUrl))
            (some st.projectUrl)).getD ""),
          vercelUrl := st.previewData.bind (fun pd => pd.vercelUrl),
          projectName := some env.projectName,
          contractAddressesPresent := some contractAddresses.isSome,
          appType := some appType }
      updateJobStatus .completed (some result) none
      tryIgnore (liftE env.notifyComplete)

/-- `executeFollowUpJob(jobId, job, context)`. -/
def executeFollowUpJob (env : FollowEnv) (jobId : String) (context : JobContext)
    (userId : String) (appType : String) : JobM Unit := do
  if !(isTruthy env.accessToken) then throwJ "Missing preview auth token"
  if !(isTruthy context.existingProjectId) then
    throwJ "Follow-up job requires existingProjectId in context"
  let projectId := context.existingProjectId.getD ""
  if !env.userFound then throwJ ("User " ++ userId ++ " not found")
  let currentFiles ←
    match env.loadFiles with
    | .ok fs => pureJ fs
    | .error e => throwJ ("Failed to load project files: " ++ e)
  if currentFiles.length == 0 then
    throwJ ("No existing files found for project " ++ projectId)
  let result ← liftE env.pipeline
  let validatedFiles ← tryCatchJ (do
      let bv ← liftE env.buildValidation
      pureJ bv.files)
    (fun _ => pureJ result.files)
  emit "writeFilesToDir"
  emit "saveFilesToGenerated"
  let safeFiles := validatedFiles.filter (fun f => !(jsIncludes f.content "\x00"))
  emit "saveProjectFiles"
  emit "getProjectFiles_verify"
  let st0 : FollowDeployState := { deployableFiles := validatedFiles }
  let st ← followUpDeployLoop env projectId 4 4 st0
  let validatedFiles := if st.deploymentFailed then validatedFiles else st.deployableFiles
  if !st.deploymentFailed && result.hasDiffs && decide (result.diffsCount > 0) then
    tryIgnore (emit "savePatch")
  if st.deploymentFailed then do
    let errorResult : Payload :=
      { success := some false, projectId := some projectId,
        deploymentError := some st.deploymentError, deploymentFailed := some true,
        status := some "deployment_failed",
        files := some (validatedFiles.map (fun f => f.filename)),
        diffsCount := some (if result.hasDiffs then result.diffsCount else 0),
        generatedFiles := some (validatedFiles.map (fun f => f.filename)),
        previewUrl := env.getPreviewUrl,
        url := some ((jsOrStr env.getPreviewUrl
          (some ("https://" ++ projectId ++ "." ++ CUSTOM_DOMAIN_BASE))).getD ""),
        port := some 3000 }
    updateJobStatus .failed (some errorResult) (some st.deploymentError)
    tryIgnore (liftE env.notifyFailed)
    throwJ ("Deployment failed: " ++ st.deploymentError)
  else do
    let changedFilenames := validatedFiles.map (fun f => f.filename)
    let jobResult : Payload :=
      { success := some true, projectId := some projectId,
        files := some changedFilenames,
        diffsCount := some (if result.hasDiffs then result.diffsCount else 0),
        changedFiles := some changedFilenames,
        generatedFiles := some changedFilenames,
        previewUrl := jsOrStr st.finalVercelUrl env.getPreviewUrl,
        vercelUrl := st.finalVercelUrl,
        totalFiles := some validatedFiles.length, appType := some appType,
        deploymentAttempts := some st.deploymentAttempt }
    updateJobStatus .completed (some jobResult) none
    tryIgnore (liftE env.notifyEditComplete)

/-- Everything `executeGenerationJob` needs: the job context, whether the row
was found, and the per-path environments. -/
structure WorkerEnv where
  jobFound : Bool := true
  context : JobContext
  userId : String := "user-1"
  appType : String := "farcaster"
  initEnv : InitEnv
  followEnv : FollowEnv

/-- The `try` body of `executeGenerationJob`: load the job, refuse terminal
states, mark a pending job `processing`, and route by job kind. -/
def executeGenerationJobBody (env : WorkerEnv) (jobId : String) : JobM Unit := do
  let job ← getJob
  if !env.jobFound then throwJ ("Job " ++ jobId ++ " not found")
  if !(job.status == .processing || job.status == .pending) then
    throwJ ("Job " ++ jobId ++ " is in " ++ statusName job.status ++
      " state, cannot process")
  if job.status == .pending then updateJobStatus .processing none none
  if env.context.isFollowUp then
    executeFollowUpJob env.followEnv jobId env.context env.userId env.appType
  else
    executeInitialGenerationJob env.initEnv jobId env.context env.userId env.appType

/-- `executeGenerationJob(jobId)`: the body wrapped in the catch-all that
marks the job `failed` with the exception message and rethrows. -/
def executeGenerationJob (env : WorkerEnv) (jobId : String) : JobM Unit :=
  tryCatchJ (executeGenerationJobBody env jobId)
    (fun e => do
      updateJobStatus .failed none (some e)
      throwJ e)

/-! ## C3 and C4: terminal-status discipline of the Job Controller -/

/-- `m` can only return successfully with the job marked `completed`. -/
def EndsCompleted (m : JobM Unit) : Prop :=
  ∀ s a s', m s = (Except.ok a, s') → s'.job.status = JobStatus.completed

theorem endsCompleted_bind {α : Type} (m : JobM α) (k : α → JobM Unit)
    (h : ∀ a, EndsCompleted (k a)) : EndsCompleted (m >>= k) := by
  intro s a s' heq
  have hb : (m >>= k) s = bindJ m k s := rfl
  rw [hb] at heq
  unfold bindJ at heq
  rcases hm : m s with ⟨r, s1⟩
  rw [hm] at heq
  cases r with
  | ok b => exact h b s1 a s' heq
  | error e => simp at heq

theorem endsCompleted_throw (msg : String) : EndsCompleted (throwJ msg) := by
  intro s a s' heq
  unfold throwJ at heq
  simp at heq

theorem endsCompleted_ite (c : Prop) [Decidable c] (t e : JobM Unit)
    (ht : EndsCompleted t) (he : EndsCompleted e) : EndsCompleted (if c then t else e) := by
  by_cases h : c
  · rw [if_pos h]; exact ht
  · rw [if_neg h]; exact he

theorem run_completed_notify (p : Option Payload) (n : Except String Unit) (s : DbState) :
    ((updateJobStatus .completed p none) >>= fun _ => tryIgnore (liftE n)) s =
      (.ok (), { s with job :=
        { status := .completed,
          result := match p with | some q => some q | none => s.job.result,
          error := s.job.error } }) := by
  cases n <;> rfl

theorem endsCompleted_completed_notify (p : Option Payload) (n : Except String Unit) :
    EndsCompleted ((updateJobStatus .completed p none) >>= fun _ => tryIgnore (liftE n)) := by
  intro s a s' heq
  rw [run_completed_notify] at heq
  have h2 := congrArg Prod.snd heq
  simp only [] at h2
  rw [← h2]

theorem endsCompleted_followUp (env : FollowEnv) (jobId : String) (context : JobContext)
    (userId appType : String) :
    EndsCompleted (executeFollowUpJob env jobId context userId appType) := by
  unfold executeFollowUpJob
  repeat
    first
      | exact endsCompleted_completed_notify _ _
      | exact endsCompleted_throw _
      | (apply endsCompleted_ite)
      | (apply endsCompleted_bind; intro _)
      | dsimp only
      | split

theorem endsCompleted_init (env : InitEnv) (jobId : String) (context : JobContext)
    (userId appType : String) :
    EndsCompleted (executeInitialGenerationJob env jobId context userId appType) := by
  unfold executeInitialGenerationJob
  repeat
    first
      | exact endsCompleted_completed_notify _ _
      | exact endsCompleted_throw _
      | (apply endsCompleted_ite)
      | (apply endsCompleted_bind; intro _)
      | dsimp only
      | split

theorem endsCompleted_body (env : WorkerEnv) (jobId : String) :
    EndsCompleted (executeGenerationJobBody env jobId) := by
  unfold executeGenerationJobBody
  repeat
    first
      | exact endsCompleted_followUp _ _ _ _ _
      | exact endsCompleted_init _ _ _ _ _
      | exact endsCompleted_throw _
      | (apply endsCompleted_ite)
      | (apply endsCompleted_bind; intro _)
      | dsimp only
      | split

/-- **C3.** On an existing job, `executeGenerationJob` never leaves the job
in `processing`: whatever the oracles do, the final status is `completed` or
`failed`; an unrecovered exception ends with status `failed` carrying the
exception message, and a normal return ends with status `completed`. -/
theorem C3_never_left_processing (env : WorkerEnv) (jobId : String) (s : DbState)
    (hfound : env.jobFound = true) :
    ((executeGenerationJob env jobId s).2.job.status = JobStatus.completed ∨
      (executeGenerationJob env jobId s).2.job.status = JobStatus.failed) ∧
    (∀ e, (executeGenerationJob env jobId s).1 = .error e →
      (executeGenerationJob env jobId s).2.job.status = JobStatus.failed ∧
      (executeGenerationJob env jobId s).2.job.error = some e) ∧
    (∀ u, (executeGenerationJob env jobId s).1 = .ok u →
      (executeGenerationJob env jobId s).2.job.status = JobStatus.completed) := by
  rcases hbody : executeGenerationJobBody env jobId s with ⟨r, s1⟩
  cases r with
  | ok u =>
    have hres : executeGenerationJob env jobId s = (.ok u, s1) := by
      unfold executeGenerationJob tryCatchJ
      rw [hbody]
    have hc := endsCompleted_body env jobId s u s1 hbody
    rw [hres]
    refine ⟨Or.inl hc, ?_, ?_⟩
    · intro e he
      simp at he
    · intro u2 _
      exact hc
  | error e =>
    have hres : executeGenerationJob env jobId s =
        (.error e, { s1 with job :=
          { status := JobStatus.failed, result := s1.job.result, error := some e } }) := by
      unfold executeGenerationJob tryCatchJ
      rw [hbody]
      rfl
    rw [hres]
    refine ⟨Or.inr rfl, ?_, ?_⟩
    · intro e2 he2
      simp at he2
      subst he2
      exact ⟨rfl, rfl⟩
    · intro u2 hu2
      simp at hu2

/-- Helper for C4: invoking the controller on a job already in a terminal
state throws at the status guard, and the catch-all marks the job failed. -/
theorem exec_on_terminal_job (env : WorkerEnv) (jobId : String) (s : DbState)
    (hfound : env.jobFound = true)
    (hterm : s.job.status = JobStatus.failed ∨ s.job.status = JobStatus.completed) :
    (executeGenerationJob env jobId s).2.job.status = JobStatus.failed ∧
    (executeGenerationJob env jobId s).1 =
      .error ("Job " ++ jobId ++ " is in " ++ statusName s.job.status ++
        " state, cannot process") := by
  have hbody : executeGenerationJobBody env jobId s =
      (.error ("Job " ++ jobId ++ " is in " ++ statusName s.job.status ++
        " state, cannot process"), s) := by
    unfold executeGenerationJobBody
    rcases hterm with h | h <;>
      simp [Bind.bind, Pure.pure, bindJ, getJob, h, throwJ, pureJ, hfound]
  have hres : executeGenerationJob env jobId s =
      (.error ("Job " ++ jobId ++ " is in " ++ statusName s.job.status ++
        " state, cannot process"),
       { s with job :=
          { status := JobStatus.failed, result := s.job.result,
            error := some ("Job " ++ jobId ++ " is in " ++ statusName s.job.status ++
              " state, cannot process") } }) := by
    unfold executeGenerationJob tryCatchJ
    rw [hbody]
    rfl
  rw [hres]
  exact ⟨rfl, rfl⟩

/-- **C4 (amended).** `failed` is terminal under `executeGenerationJob` (a
failed job is failed afterwards), but `completed` is *not* terminal: invoking
the controller on a completed job rewrites its status to `failed`, because
the "cannot process" guard throws and the catch-all writes `failed`
unconditionally. -/
theorem C4_terminal_behaviour (env : WorkerEnv) (jobId : String) (s : DbState)
    (hfound : env.jobFound = true) :
    (s.job.status = JobStatus.failed →
      (executeGenerationJob env jobId s).2.job.status = JobStatus.failed) ∧
    (s.job.status = JobStatus.completed →
      (executeGenerationJob env jobId s).2.job.status = JobStatus.failed) :=
  ⟨fun h => (exec_on_terminal_job env jobId s hfound (Or.inl h)).1,
   fun h => (exec_on_terminal_job env jobId s hfound (Or.inr h)).1⟩

/-- A benign oracle environment for the initial path (everything succeeds on
the first try). -/
def demoInitEnv : InitEnv :=
  { pipeline := .ok { success := true, files := [⟨"app.tsx", "x"⟩] },
    buildValidation := .ok
      { files := [⟨"app.tsx", "x"⟩], buildSuccess := true, iterations := 1, errors := [] },
    createPreview := fun _ => .ok
      { status := "ready", vercelUrl := some "https://demo.vercel.app" } }

/-- A benign oracle environment for the follow-up path. -/
def demoFollowEnv : FollowEnv :=
  { loadFiles := .ok [⟨"app.tsx", "x"⟩],
    pipeline := .ok { files := [⟨"app.tsx", "y"⟩] },
    buildValidation := .ok
      { files := [⟨"app.tsx", "y"⟩], buildSuccess := true, iterations := 1, errors := [] },
    redeploy := fun _ => .ok { vercelUrl := some "https://demo.vercel.app" } }

def demoWorkerEnv : WorkerEnv :=
  { context := { prompt := "BUILD THIS MINIAPP: a todo list" },
    initEnv := demoInitEnv, followEnv := demoFollowEnv }

/-- **C4 (counterexample).** The claim says a `completed` job is terminal.
Invoking `executeGenerationJob` on a job whose status is `completed` moves it
to `failed` (with the guard's message as the job error). -/
theorem C4_counterexample :
    (executeGenerationJob demoWorkerEnv "job-1"
      { job := { status := .completed } }).2.job.status = JobStatus.failed ∧
    (executeGenerationJob demoWorkerEnv "job-1"
      { job := { status := .completed } }).2.job.error =
      some "Job job-1 is in completed state, cannot process" := by
  constructor <;> rfl

theorem C3_never_left_processing_witness :
    ((executeGenerationJob demoWorkerEnv "job-1"
        { job := { status := .pending } }).2.job.status = JobStatus.completed ∨
      (executeGenerationJob demoWorkerEnv "job-1"
        { job := { status := .pending } }).2.job.status = JobStatus.failed) ∧
    (∀ e, (executeGenerationJob demoWorkerEnv "job-1"
        { job := { status := .pending } }).1 = .error e →
      (executeGenerationJob demoWorkerEnv "job-1"
        { job := { status := .pending } }).2.job.status = JobStatus.failed ∧
      (executeGenerationJob demoWorkerEnv "job-1"
        { job := { status := .pending } }).2.job.error = some e) ∧
    (∀ u, (executeGenerationJob demoWorkerEnv "job-1"
        { job := { status := .pending } }).1 = .ok u →
      (executeGenerationJob demoWorkerEnv "job-1"
        { job := { status := .pending } }).2.job.status = JobStatus.completed) :=
  C3_never_left_processing demoWorkerEnv "job-1" { job := { status := .pending } } rfl

theorem C4_terminal_behaviour_witness :
    (executeGenerationJob demoWorkerEnv "job-1"
      { job := { status := .failed } }).2.job.status = JobStatus.failed :=
  (C4_terminal_behaviour demoWorkerEnv "job-1"
    { job := { status := .failed } } rfl).1 rfl

theorem getLast?_single {α : Type} (a : α) : [a].getLast? = some a := rfl

theorem getLast?_pair {α : Type} (a b : α) : [a, b].getLast? = some b := rfl

/-- **C1 (amended).** When the platform reports a content failure with a
similar error on 3 consecutive attempts, both deployment retry loops stop on
exactly the 3rd attempt with their stuck flag set, never starting a 4th
attempt.  In the initial path the stuck stop writes a failure payload whose
status `stuck_on_error` (with `stuckOnError := true`) is distinct from the
exhaustion payload's `deployment_failed_all_attempts`; in the follow-up path
the loop only sets local flags (the payload the handler then writes is shown
by the counterexample to carry no `stuckOnError` field). -/
theorem C1_stuck_on_third_attempt
    (ienv : InitEnv) (fenv : FollowEnv) (pid : String)
    (pd1 pd2 pd3 : PreviewData) (e1 e2 e3 : String)
    (f0 f1 f2 : List SrcFile) (pu : String)
    (hp1 : ienv.createPreview 1 = .ok pd1) (hp2 : ienv.createPreview 2 = .ok pd2)
    (hp3 : ienv.createPreview 3 = .ok pd3)
    (hs1 : pd1.status = "deployment_failed") (hs2 : pd2.status = "deployment_failed")
    (hs3 : pd3.status = "deployment_failed")
    (he1 : pd1.deploymentError = some e1) (he2 : pd2.deploymentError = some e2)
    (he3 : pd3.deploymentError = some e3)
    (hne1 : (e1 == "") = false) (hne2 : (e2 == "") = false) (hne3 : (e3 == "") = false)
    (hsim21 : areErrorsSimilar e2 e1 = true) (hsim32 : areErrorsSimilar e3 e2 = true)
    (hfx1 : ienv.fixDeploy 1 f0 = .ok f1) (hfx2 : ienv.fixDeploy 2 f1 = .ok f2)
    (hr1 : fenv.redeploy 1 = .ok pd1) (hr2 : fenv.redeploy 2 = .ok pd2)
    (hr3 : fenv.redeploy 3 = .ok pd3)
    (hg1 : fenv.fixDeploy 1 f0 = .ok f1) (hg2 : fenv.fixDeploy 2 f1 = .ok f2)
    (s : DbState) :
    (initialDeployLoop ienv pid 4 4 { generatedFiles := f0, projectUrl := pu } s).1 =
      .ok { generatedFiles := f2, previewData := none, projectUrl := pu,
            errorHistory := [e1, e2, e3], consecutiveSameErrorCount := 3,
            stuckOnError := true, deploymentAttempt := 3 } ∧
    (initialDeployLoop ienv pid 4 4 { generatedFiles := f0, projectUrl := pu } s).2.job.status =
      JobStatus.failed ∧
    (initialDeployLoop ienv pid 4 4 { generatedFiles := f0, projectUrl := pu } s).2.job.result =
      some (initStuckPayload pid 3 3 e3 pd3.deploymentLogs f2) ∧
    (followUpDeployLoop fenv pid 4 4 { deployableFiles := f0 } s).1 =
      .ok { deployableFiles := f2, deploymentAttempt := 3,
            errorHistory := [e1, e2, e3], consecutiveSameErrorCount := 3,
            stuckOnError := true, deploymentFailed := true,
            deploymentError := "Stuck on same error after " ++ toString 3 ++
              " retries: " ++ e3,
            finalVercelUrl := none } ∧
    (initStuckPayload pid 3 3 e3 pd3.deploymentLogs f2).status = some "stuck_on_error" ∧
    (initExhaustPayload pid false 2 4 e3 pd3.deploymentLogs f2).status =
      some "deployment_failed_all_attempts" := by
  refine ⟨?_, ?_, ?_, ?_, rfl, rfl⟩ <;>
    simp [initialDeployLoop, followUpDeployLoop, hp1, hp2, hp3, hs1, hs2, hs3,
      he1, he2, he3, hne1, hne2, hne3, hsim21, hsim32, hfx1, hfx2,
      hr1, hr2, hr3, hg1, hg2, isTruthy, MAX_CONSECUTIVE_SAME_ERROR_RETRIES,
      getLast?_single, getLast?_pair, Bind.bind, bindJ, pureJ, throwJ,
      updateJobStatus, emit, initStuckPayload]

/-- A preview outcome reporting the same content failure every time. -/
def stuckPreview : PreviewData :=
  { status := "deployment_failed", deploymentError := some "Error: boom at 1:2" }

def stuckInitEnv : InitEnv :=
  { pipeline := .ok { success := true, files := [⟨"app.tsx", "x"⟩] },
    buildValidation := .ok
      { files := [⟨"app.tsx", "x"⟩], buildSuccess := true, iterations := 1, errors := [] },
    createPreview := fun _ => .ok stuckPreview }

def stuckFollowEnv : FollowEnv :=
  { loadFiles := .ok [⟨"app.tsx", "x"⟩],
    pipeline := .ok { files := [⟨"app.tsx", "y"⟩] },
    buildValidation := .ok
      { files := [⟨"app.tsx", "y"⟩], buildSuccess := true, iterations := 1, errors := [] },
    redeploy := fun _ => .ok stuckPreview }

/-- **C1 (counterexample).** In the follow-up path the stuck outcome is not
marked `stuckOnError` in the job's error payload: after getting stuck on the
same error for 3 attempts, the job's stored result has `stuckOnError = none`
(the field is absent) and the generic status `deployment_failed` — only the
error text differs from ordinary exhaustion. -/
theorem C1_counterexample :
    ((executeFollowUpJob stuckFollowEnv "job-1"
        { prompt := "edit", isFollowUp := true, existingProjectId := some "proj-1" }
        "user-1" "farcaster" { job := { status := .processing } }).2.job.result.map
      (fun p => (p.status, p.stuckOnError))) =
      some (some "deployment_failed", none) ∧
    (executeFollowUpJob stuckFollowEnv "job-1"
        { prompt := "edit", isFollowUp := true, existingProjectId := some "proj-1" }
        "user-1" "farcaster" { job := { status := .processing } }).1 =
      .error "Deployment failed: Stuck on same error after 3 retries: Error: boom at 1:2" ∧
    (executeFollowUpJob stuckFollowEnv "job-1"
        { prompt := "edit", isFollowUp := true, existingProjectId := some "proj-1" }
        "user-1" "farcaster" { job := { status := .processing } }).2.job.status =
      JobStatus.failed := by
  refine ⟨?_, ?_, ?_⟩ <;> rfl

theorem C1_stuck_on_third_attempt_witness :
    (initialDeployLoop stuckInitEnv "proj-1" 4 4
        { generatedFiles := [⟨"app.tsx", "x"⟩], projectUrl := "u" }
        { job := { status := .processing } }).1 =
      .ok { generatedFiles := [⟨"app.tsx", "x"⟩], previewData := none, projectUrl := "u",
            errorHistory := ["Error: boom at 1:2", "Error: boom at 1:2",
              "Error: boom at 1:2"],
            consecutiveSameErrorCount := 3, stuckOnError := true,
            deploymentAttempt := 3 } ∧
    (initialDeployLoop stuckInitEnv "proj-1" 4 4
        { generatedFiles := [⟨"app.tsx", "x"⟩], projectUrl := "u" }
        { job := { status := .processing } }).2.job.status = JobStatus.failed ∧
    (initialDeployLoop stuckInitEnv "proj-1" 4 4
        { generatedFiles := [⟨"app.tsx", "x"⟩], projectUrl := "u" }
        { job := { status := .processing } }).2.job.result =
      some (initStuckPayload "proj-1" 3 3 "Error: boom at 1:2"
        stuckPreview.deploymentLogs [⟨"app.tsx", "x"⟩]) ∧
    (followUpDeployLoop stuckFollowEnv "proj-1" 4 4
        { deployableFiles := [⟨"app.tsx", "x"⟩] }
        { job := { status := .processing } }).1 =
      .ok { deployableFiles := [⟨"app.tsx", "x"⟩], deploymentAttempt := 3,
            errorHistory := ["Error: boom at 1:2", "Error: boom at 1:2",
              "Error: boom at 1:2"],
            consecutiveSameErrorCount := 3, stuckOnError := true,
            deploymentFailed := true,
            deploymentError := "Stuck on same error after " ++ toString 3 ++
              " retries: " ++ "Error: boom at 1:2",
            finalVercelUrl := none } ∧
    (initStuckPayload "proj-1" 3 3 "Error: boom at 1:2"
        stuckPreview.deploymentLogs [⟨"app.tsx", "x"⟩]).status = some "stuck_on_error" ∧
    (initExhaustPayload "proj-1" false 2 4 "Error: boom at 1:2"
        stuckPreview.deploymentLogs [⟨"app.tsx", "x"⟩]).status =
      some "deployment_failed_all_attempts" :=
  C1_stuck_on_third_attempt stuckInitEnv stuckFollowEnv "proj-1"
    stuckPreview stuckPreview stuckPreview
    "Error: boom at 1:2" "Error: boom at 1:2" "Error: boom at 1:2"
    [⟨"app.tsx", "x"⟩] [⟨"app.tsx", "x"⟩] [⟨"app.tsx", "x"⟩] "u"
    rfl rfl rfl rfl rfl rfl rfl rfl rfl rfl rfl rfl
    (by decide) (by decide) rfl rfl rfl rfl rfl rfl rfl
    { job := { status := .processing } }

end Miniapp
